import Mathlib

/-!
Verification development for the vanilla-JavaScript to-do application
(state management and persistence core: stateManager.js, storage.js,
taskManager.js, validation.js, helpers.js).

The JavaScript source is shallowly embedded: JSON values become an
inductive type with executable stringify/parse, localStorage becomes an
association list from keys to serialized strings, and the state/task
managers become explicit state-passing functions.  JavaScript exceptions
are modelled with Except, absent object fields with Option, and the
wall clock (new Date().toISOString()) is threaded as an explicit
ISO-8601 string parameter.
-/

namespace TodoSpec

/-! ### JavaScript-flavoured string helpers -/

/-- Model of String.prototype.trim: strip leading and trailing whitespace.
(Defined over the character list so that concrete values reduce inside the
kernel.) -/
def jsTrim (s : String) : String :=
  String.mk (((s.data.dropWhile Char.isWhitespace).reverse.dropWhile Char.isWhitespace).reverse)

/-- Model of String.prototype.toLowerCase (ASCII case mapping, which covers
every string this development evaluates). -/
def jsToLower (s : String) : String :=
  String.mk (s.data.map Char.toLower)

/-- Model of String.prototype.substring(0, n). -/
def jsSubstring0 (s : String) (n : Nat) : String :=
  String.mk (s.data.take n)

/-- Does the character list start with the given needle? -/
def startsWithChars : List Char → List Char → Bool
  | [], _ => true
  | _ :: _, [] => false
  | a :: as, b :: bs => a = b && startsWithChars as bs

/-- Model of String.prototype.startsWith (reducible form). -/
def jsStartsWith (s p : String) : Bool :=
  startsWithChars p.data s.data

def containsAt : List Char → List Char → Bool
  | [], needle => needle.isEmpty
  | c :: cs, needle => startsWithChars needle (c :: cs) || containsAt cs needle

/-- Substring containment, modelling the JavaScript String.prototype.includes
test used by searchTasks and getFilteredTasks. -/
def strIncludes (s q : String) : Bool :=
  containsAt s.data q.data

/-- Model of helpers.js sanitizeHtml: the function assigns the string to a
DOM text node and reads back innerHTML, which HTML-escapes the characters
ampersand, less-than and greater-than.  (The serializer would also escape
U+00A0 as a named entity; that character does not occur in any input
considered here.) -/
def sanitizeHtml (s : String) : String :=
  String.join (s.data.map (fun c =>
    if c = '&' then "&amp;"
    else if c = '<' then "&lt;"
    else if c = '>' then "&gt;"
    else String.singleton c))

/-! ### JSON values

JSON.parse / JSON.stringify are modelled over an inductive value type.
Numbers are restricted to integers: every number this application ever
persists (task counts, maxTasks, durations) is an integer, and no claim
involves fractional values. -/

inductive JVal where
  | jnull
  | jbool (b : Bool)
  | jnum (n : Int)
  | jstr (s : String)
  | jarr (xs : List JVal)
  | jobj (fields : List (String × JVal))
deriving Repr

mutual

/-- Structural equality of JSON values (the strict-equality comparisons the
source performs are only ever on primitive values, where JavaScript
strict equality coincides with this). -/
def JVal.beq : JVal → JVal → Bool
  | .jnull, .jnull => true
  | .jbool a, .jbool b => a == b
  | .jnum a, .jnum b => a == b
  | .jstr a, .jstr b => a == b
  | .jarr xs, .jarr ys => JVal.beqList xs ys
  | .jobj fs, .jobj gs => JVal.beqFields fs gs
  | _, _ => false

def JVal.beqList : List JVal → List JVal → Bool
  | [], [] => true
  | x :: xs, y :: ys => x.beq y && JVal.beqList xs ys
  | _, _ => false

def JVal.beqFields : List (String × JVal) → List (String × JVal) → Bool
  | [], [] => true
  | (k1, v1) :: fs, (k2, v2) :: gs => k1 == k2 && v1.beq v2 && JVal.beqFields fs gs
  | _, _ => false

end

instance : BEq JVal := ⟨JVal.beq⟩

/-- JSON string escaping as performed by JSON.stringify: quote, backslash,
the short control escapes, and u-escapes for remaining control characters. -/
def jsonEscapeChar (c : Char) : String :=
  if c = '"' then "\\\""
  else if c = '\\' then "\\\\"
  else if c = '\n' then "\\n"
  else if c = '\t' then "\\t"
  else if c = '\r' then "\\r"
  else if c = '\x08' then "\\b"
  else if c = '\x0c' then "\\f"
  else if c.toNat < 32 then
    "\\u00" ++ String.singleton (Nat.digitChar (c.toNat / 16)) ++
      String.singleton (Nat.digitChar (c.toNat % 16))
  else String.singleton c

def jsonQuote (s : String) : String :=
  "\"" ++ String.join (s.data.map jsonEscapeChar) ++ "\""

mutual

/-- Model of JSON.stringify(v) (compact form, no indent argument). -/
def JVal.stringify : JVal → String
  | .jnull => "null"
  | .jbool true => "true"
  | .jbool false => "false"
  | .jnum n => toString n
  | .jstr s => jsonQuote s
  | .jarr xs => "[" ++ JVal.stringifyElems xs ++ "]"
  | .jobj fs => "\x7b" ++ JVal.stringifyFields fs ++ "\x7d"

def JVal.stringifyElems : List JVal → String
  | [] => ""
  | [x] => x.stringify
  | x :: y :: xs => x.stringify ++ "," ++ JVal.stringifyElems (y :: xs)

def JVal.stringifyFields : List (String × JVal) → String
  | [] => ""
  | [(k, v)] => jsonQuote k ++ ":" ++ v.stringify
  | (k, v) :: f :: fs => jsonQuote k ++ ":" ++ v.stringify ++ "," ++ JVal.stringifyFields (f :: fs)

end

def indentOf (depth : Nat) : String :=
  String.mk (List.replicate (2 * depth) ' ')

mutual

/-- Model of JSON.stringify(v, null, 2): pretty printing with two-space
indentation, used by StorageService.exportData. -/
def JVal.stringifyPretty (depth : Nat) : JVal → String
  | .jnull => "null"
  | .jbool true => "true"
  | .jbool false => "false"
  | .jnum n => toString n
  | .jstr s => jsonQuote s
  | .jarr [] => "[]"
  | .jarr (x :: xs) =>
    "[\n" ++ JVal.prettyElems (depth + 1) (x :: xs) ++ "\n" ++ indentOf depth ++ "]"
  | .jobj [] => "\x7b\x7d"
  | .jobj (f :: fs) =>
    "\x7b\n" ++ JVal.prettyFields (depth + 1) (f :: fs) ++ "\n" ++ indentOf depth ++ "\x7d"

def JVal.prettyElems (depth : Nat) : List JVal → String
  | [] => ""
  | [x] => indentOf depth ++ x.stringifyPretty depth
  | x :: y :: xs =>
    indentOf depth ++ x.stringifyPretty depth ++ ",\n" ++ JVal.prettyElems depth (y :: xs)

def JVal.prettyFields (depth : Nat) : List (String × JVal) → String
  | [] => ""
  | [(k, v)] => indentOf depth ++ jsonQuote k ++ ": " ++ v.stringifyPretty depth
  | (k, v) :: f :: fs =>
    indentOf depth ++ jsonQuote k ++ ": " ++ v.stringifyPretty depth ++ ",\n" ++
      JVal.prettyFields depth (f :: fs)

end

/-! ### JSON parser

A fuel-based recursive-descent parser modelling JSON.parse.  The fuel is
structural so every concrete parse reduces definitionally; jsonParse
supplies fuel strictly larger than any call depth reachable on its input. -/

def jsonWs (c : Char) : Bool :=
  c = ' ' || c = '\t' || c = '\n' || c = '\r'

def skipWs : List Char → List Char
  | [] => []
  | c :: cs => if jsonWs c then skipWs cs else c :: cs

def hexVal (c : Char) : Option Nat :=
  if '0' ≤ c ∧ c ≤ '9' then some (c.toNat - '0'.toNat)
  else if 'a' ≤ c ∧ c ≤ 'f' then some (c.toNat - 'a'.toNat + 10)
  else if 'A' ≤ c ∧ c ≤ 'F' then some (c.toNat - 'A'.toNat + 10)
  else none

def parseStringBody (fuel : Nat) (cs : List Char) (acc : String) :
    Option (String × List Char) :=
  match fuel, cs with
  | 0, _ => none
  | _, [] => none
  | fuel + 1, c :: cs =>
    if c = '"' then some (acc, cs)
    else if c = '\\' then
      match cs with
      | [] => none
      | e :: cs2 =>
        if e = '"' then parseStringBody fuel cs2 (acc.push '"')
        else if e = '\\' then parseStringBody fuel cs2 (acc.push '\\')
        else if e = '/' then parseStringBody fuel cs2 (acc.push '/')
        else if e = 'n' then parseStringBody fuel cs2 (acc.push '\n')
        else if e = 't' then parseStringBody fuel cs2 (acc.push '\t')
        else if e = 'r' then parseStringBody fuel cs2 (acc.push '\r')
        else if e = 'b' then parseStringBody fuel cs2 (acc.push '\x08')
        else if e = 'f' then parseStringBody fuel cs2 (acc.push '\x0c')
        else if e = 'u' then
          match cs2 with
          | h1 :: h2 :: h3 :: h4 :: cs3 =>
            match hexVal h1, hexVal h2, hexVal h3, hexVal h4 with
            | some a, some b, some c3, some d =>
              let n := ((a * 16 + b) * 16 + c3) * 16 + d
              if h : n.isValidChar then
                parseStringBody fuel cs3 (acc.push (Char.ofNatAux n h))
              else none
            | _, _, _, _ => none
          | _ => none
        else none
    else parseStringBody fuel cs (acc.push c)

def parseDigits (fuel : Nat) (cs : List Char) (acc : Nat) (seen : Bool) :
    Option (Nat × List Char) :=
  match fuel, cs with
  | 0, _ => none
  | _, [] => if seen then some (acc, []) else none
  | fuel + 1, c :: cs =>
    if '0' ≤ c ∧ c ≤ '9' then
      parseDigits fuel cs (acc * 10 + (c.toNat - '0'.toNat)) true
    else if seen then some (acc, c :: cs) else none

mutual

def parseValue (fuel : Nat) (cs : List Char) : Option (JVal × List Char) :=
  match fuel with
  | 0 => none
  | fuel + 1 =>
    match cs with
    | [] => none
    | c :: rest =>
      if c = 'n' then
        match rest with
        | 'u' :: 'l' :: 'l' :: rest2 => some (.jnull, rest2)
        | _ => none
      else if c = 't' then
        match rest with
        | 'r' :: 'u' :: 'e' :: rest2 => some (.jbool true, rest2)
        | _ => none
      else if c = 'f' then
        match rest with
        | 'a' :: 'l' :: 's' :: 'e' :: rest2 => some (.jbool false, rest2)
        | _ => none
      else if c = '"' then
        match parseStringBody fuel rest "" with
        | some (s, rest2) => some (.jstr s, rest2)
        | none => none
      else if c = '-' then
        match parseDigits fuel rest 0 false with
        | some (n, rest2) => some (.jnum (-(n : Int)), rest2)
        | none => none
      else if '0' ≤ c ∧ c ≤ '9' then
        match parseDigits fuel (c :: rest) 0 false with
        | some (n, rest2) => some (.jnum (n : Int), rest2)
        | none => none
      else if c = '[' then
        match skipWs rest with
        | ']' :: rest2 => some (.jarr [], rest2)
        | rest2 => parseElems fuel rest2 []
      else if c = '\x7b' then
        match skipWs rest with
        | '\x7d' :: rest2 => some (.jobj [], rest2)
        | rest2 => parseFields fuel rest2 []
      else none

def parseElems (fuel : Nat) (cs : List Char) (acc : List JVal) :
    Option (JVal × List Char) :=
  match fuel with
  | 0 => none
  | fuel + 1 =>
    match parseValue fuel (skipWs cs) with
    | none => none
    | some (v, rest) =>
      match skipWs rest with
      | ',' :: rest2 => parseElems fuel rest2 (acc ++ [v])
      | ']' :: rest2 => some (.jarr (acc ++ [v]), rest2)
      | _ => none

def parseFields (fuel : Nat) (cs : List Char) (acc : List (String × JVal)) :
    Option (JVal × List Char) :=
  match fuel with
  | 0 => none
  | fuel + 1 =>
    match skipWs cs with
    | '"' :: rest =>
      match parseStringBody fuel rest "" with
      | none => none
      | some (k, rest2) =>
        match skipWs rest2 with
        | ':' :: rest3 =>
          match parseValue fuel (skipWs rest3) with
          | none => none
          | some (v, rest4) =>
            match skipWs rest4 with
            | ',' :: rest5 => parseFields fuel rest5 (acc ++ [(k, v)])
            | '\x7d' :: rest5 => some (.jobj (acc ++ [(k, v)]), rest5)
            | _ => none
        | _ => none
    | _ => none

end

/-- Model of JSON.parse: parses one value surrounded by optional whitespace,
rejecting trailing input.  Parse failure (a JavaScript SyntaxError) is the
none result. -/
def jsonParse (s : String) : Option JVal :=
  match parseValue (2 * s.length + 4) (skipWs s.data) with
  | some (v, rest) => if skipWs rest = [] then some v else none
  | none => none

/-! ### JavaScript value coercions -/

/-- Property access obj.k on a parsed JSON value: none models undefined.
JSON.parse resolves duplicate keys last-wins, hence the reverse lookup. -/
def jsGet (v : JVal) (k : String) : Option JVal :=
  match v with
  | .jobj fs => (fs.reverse.find? (fun p => p.1 = k)).map (·.2)
  | _ => none

/-- JavaScript truthiness of a possibly-undefined value (undefined, null,
false, 0 and the empty string are falsy; objects and arrays are truthy). -/
def jsTruthy : Option JVal → Bool
  | none => false
  | some .jnull => false
  | some (.jbool b) => b
  | some (.jnum n) => n ≠ 0
  | some (.jstr s) => s ≠ ""
  | some (.jarr _) => true
  | some (.jobj _) => true

def jsIsArray : Option JVal → Bool
  | some (.jarr _) => true
  | _ => false

/-- Is the value of JavaScript typeof "object" (arrays and null included)? -/
def jsIsObjectType : JVal → Bool
  | .jobj _ => true
  | .jarr _ => true
  | .jnull => true
  | _ => false

def digitsToNat : List Char → Nat → Option Nat
  | [], acc => some acc
  | c :: cs, acc =>
    if '0' ≤ c ∧ c ≤ '9' then digitsToNat cs (acc * 10 + (c.toNat - '0'.toNat))
    else none

/-- Model of the JavaScript Number() coercion restricted to the values this
application stores; none models NaN.  Strings are accepted when they are
(possibly signed) decimal integers after trimming. -/
def jsToNumber : Option JVal → Option Int
  | none => none
  | some .jnull => some 0
  | some (.jbool b) => some (if b then 1 else 0)
  | some (.jnum n) => some n
  | some (.jstr s) =>
    let t := jsTrim s
    if t = "" then some 0
    else
      match t.data with
      | '-' :: ds => (digitsToNat ds 0).map (fun n => -(n : Int))
      | ds => (digitsToNat ds 0).map (fun n => (n : Int))
  | some (.jarr _) => none
  | some (.jobj _) => none

/-- Model of the JavaScript String() coercion on parsed JSON values. -/
def jvalToString : JVal → String
  | .jnull => "null"
  | .jbool true => "true"
  | .jbool false => "false"
  | .jnum n => toString n
  | .jstr s => s
  | .jarr _ => ""
  | .jobj _ => "[object Object]"

/-! ### Key-Value Store Adapter (storage.js StorageService)

localStorage is an association list from keys to serialized strings; the
isAvailable flag models isStorageAvailable('localStorage').  Blob sizes are
UTF-8 byte counts, matching new Blob([s]).size. -/

def STORAGE_KEY_TASKS : String := "todoapp_tasks"
def STORAGE_KEY_SETTINGS : String := "todoapp_settings"
def STORAGE_KEY_UI_STATE : String := "todoapp_ui_state"
def STORAGE_KEY_VERSION : String := "todoapp_version"

/-- Object.values(STORAGE_KEYS) in declaration order. -/
def STORAGE_KEYS_LIST : List String :=
  [STORAGE_KEY_TASKS, STORAGE_KEY_SETTINGS, STORAGE_KEY_UI_STATE, STORAGE_KEY_VERSION]

def CURRENT_VERSION : String := "1.0.0"

def MAX_STORAGE_SIZE : Nat := 5 * 1024 * 1024

structure Storage where
  isAvailable : Bool
  store : List (String × String)
deriving Repr, DecidableEq

def localStorageGetItem (st : List (String × String)) (k : String) : Option String :=
  (st.find? (fun p => p.1 = k)).map (·.2)

def localStorageSetItem : List (String × String) → String → String → List (String × String)
  | [], k, v => [(k, v)]
  | (k1, v1) :: rest, k, v =>
    if k1 = k then (k, v) :: rest else (k1, v1) :: localStorageSetItem rest k v

def blobSize (s : String) : Nat := s.utf8ByteSize

structure StorageInfo where
  used : Nat
  total : Nat
  availBytes : Int
  isAvailable : Bool
deriving Repr, DecidableEq

/-- StorageService.getStorageInfo: sums the Blob sizes of the values stored
under the four application-owned keys.  (The percentage field of the source
is floating point and not used by any modelled caller; it is omitted.) -/
def getStorageInfo (sto : Storage) : StorageInfo :=
  if !sto.isAvailable then
    { used := 0, total := 0, availBytes := 0, isAvailable := false }
  else
    let used := (STORAGE_KEYS_LIST.map (fun k =>
      match localStorageGetItem sto.store k with
      | some v => blobSize v
      | none => 0)).sum
    { used := used, total := MAX_STORAGE_SIZE,
      availBytes := (MAX_STORAGE_SIZE : Int) - used, isAvailable := true }

/-- StorageService.setItem: serializes, checks availability and the quota,
and only then writes.  The result pairs the thrown-or-ok outcome with the
(possibly unchanged) store contents, so that not reaching
localStorage.setItem is observable. -/
def setItem (sto : Storage) (key : String) (value : JVal) :
    Except String Unit × Storage :=
  if !sto.isAvailable then (.error "localStorage is not available", sto)
  else
    let serialized := value.stringify
    let size := blobSize serialized
    let storageInfo := getStorageInfo sto
    if storageInfo.used + size > MAX_STORAGE_SIZE then
      (.error "Storage quota exceeded", sto)
    else
      (.ok (), { sto with store := localStorageSetItem sto.store key serialized })

/-- StorageService.getItem: JSON.parse failures are caught and reported as
null (none), as is an unavailable store, a missing key and a falsy (empty)
stored string. -/
def getItem (sto : Storage) (key : String) : Option JVal :=
  if !sto.isAvailable then none
  else
    match localStorageGetItem sto.store key with
    | none => none
    | some value => if value = "" then none else jsonParse value

/-! ### Schema validation of persisted tasks (StorageService.validateTasks) -/

/-- The filter stage of StorageService.validateTasks: drops elements that are
falsy, not of typeof object, or missing a truthy id or title. -/
def taskElementOk (t : JVal) : Bool :=
  jsTruthy (some t) && jsIsObjectType t &&
    jsTruthy (jsGet t "id") && jsTruthy (jsGet t "title")

/-- The map stage of StorageService.validateTasks: id is passed through
unvalidated, the title string is clamped to 500 characters, completed is
coerced to boolean, priority falls back to medium, timestamps default to
now, completedAt defaults to null. -/
def validateTaskElement (now : String) (t : JVal) : JVal :=
  .jobj [
    ("id", (jsGet t "id").getD .jnull),
    ("title", .jstr (jsSubstring0 (jvalToString ((jsGet t "title").getD .jnull)) 500)),
    ("completed", .jbool (jsTruthy (jsGet t "completed"))),
    ("priority", if jsGet t "priority" == some (JVal.jstr "low") ||
        jsGet t "priority" == some (JVal.jstr "medium") ||
        jsGet t "priority" == some (JVal.jstr "high")
      then (jsGet t "priority").getD .jnull else .jstr "medium"),
    ("createdAt", if jsTruthy (jsGet t "createdAt")
      then (jsGet t "createdAt").getD .jnull else .jstr now),
    ("updatedAt", if jsTruthy (jsGet t "updatedAt")
      then (jsGet t "updatedAt").getD .jnull else .jstr now),
    ("completedAt", if jsTruthy (jsGet t "completedAt")
      then (jsGet t "completedAt").getD .jnull else .jnull)]

/-- StorageService.validateTasks: throws unless the input is an array, then
filters and normalizes the elements. -/
def validateTasks (now : String) (v : JVal) : Except String (List JVal) :=
  match v with
  | .jarr ts => .ok ((ts.filter taskElementOk).map (validateTaskElement now))
  | _ => .error "Tasks must be an array"

/-! ### Task persistence (StorageService.saveTasks / loadTasks) -/

/-- StorageService.saveTasks.  All failures (validation throw, quota,
unavailability) are caught internally and reported as a false result; the
store is returned alongside. -/
def saveTasks (sto : Storage) (now : String) (tasks : JVal) : Bool × Storage :=
  match validateTasks now tasks with
  | .error _ => (false, sto)
  | .ok validatedTasks =>
    let dataToStore : JVal := .jobj [
      ("tasks", .jarr validatedTasks),
      ("timestamp", .jstr now),
      ("version", .jstr CURRENT_VERSION)]
    match setItem sto STORAGE_KEY_TASKS dataToStore with
    | (.error _, st2) => (false, st2)
    | (.ok _, st2) => (true, st2)

/-- StorageService.loadTasks.  A legacy plain-array record is migrated by an
immediate saveTasks (the only path on which loading writes); the new object
format is validated; anything else, including corrupt or absent data, yields
the empty collection without throwing. -/
def loadTasks (sto : Storage) (now : String) : List JVal × Storage :=
  match getItem sto STORAGE_KEY_TASKS with
  | none => ([], sto)
  | some data =>
    if !jsTruthy (some data) then ([], sto)
    else
      match data with
      | .jarr arr =>
        match validateTasks now (.jarr arr) with
        | .error _ => ([], sto)
        | .ok tasks =>
          let (_, st2) := saveTasks sto now (.jarr tasks)
          (tasks, st2)
      | _ =>
        if jsTruthy (jsGet data "tasks") && jsIsArray (jsGet data "tasks") then
          match validateTasks now ((jsGet data "tasks").getD .jnull) with
          | .error _ => ([], sto)
          | .ok tasks => (tasks, sto)
        else ([], sto)

/-! ### Settings and UI-state persistence -/

def getDefaultSettings : JVal :=
  .jobj [
    ("maxTasks", .jnum 1000),
    ("autoSave", .jbool true),
    ("confirmDeletion", .jbool true),
    ("showCompletedTasks", .jbool true),
    ("taskSortBy", .jstr "createdAt"),
    ("taskSortDirection", .jstr "desc")]

/-- StorageService.validateSettings: clamps maxTasks into [1, 10000] with a
falsy-or-NaN fallback to the default 1000, coerces the booleans with
defaults on absence, and whitelists the sort field and direction. -/
def validateSettings (settings : JVal) : JVal :=
  if !jsTruthy (some settings) || !jsIsObjectType settings then getDefaultSettings
  else
    let rawMax : Int :=
      match jsToNumber (jsGet settings "maxTasks") with
      | some n => if n ≠ 0 then n else 1000
      | none => 1000
    let boolOr (k : String) (dflt : Bool) : Bool :=
      match jsGet settings k with
      | none => dflt
      | some v => jsTruthy (some v)
    .jobj [
      ("maxTasks", .jnum (max 1 (min rawMax 10000))),
      ("autoSave", .jbool (boolOr "autoSave" true)),
      ("confirmDeletion", .jbool (boolOr "confirmDeletion" true)),
      ("showCompletedTasks", .jbool (boolOr "showCompletedTasks" true)),
      ("taskSortBy", if jsGet settings "taskSortBy" == some (JVal.jstr "createdAt") ||
          jsGet settings "taskSortBy" == some (JVal.jstr "updatedAt") ||
          jsGet settings "taskSortBy" == some (JVal.jstr "title") ||
          jsGet settings "taskSortBy" == some (JVal.jstr "priority")
        then (jsGet settings "taskSortBy").getD .jnull else .jstr "createdAt"),
      ("taskSortDirection", if jsGet settings "taskSortDirection" == some (JVal.jstr "asc") ||
          jsGet settings "taskSortDirection" == some (JVal.jstr "desc")
        then (jsGet settings "taskSortDirection").getD .jnull else .jstr "desc")]

def saveSettings (sto : Storage) (now : String) (settings : JVal) : Bool × Storage :=
  let validatedSettings := validateSettings settings
  let dataToStore : JVal := .jobj [
    ("settings", validatedSettings),
    ("timestamp", .jstr now),
    ("version", .jstr CURRENT_VERSION)]
  match setItem sto STORAGE_KEY_SETTINGS dataToStore with
  | (.error _, st2) => (false, st2)
  | (.ok _, st2) => (true, st2)

def loadSettings (sto : Storage) : JVal :=
  match getItem sto STORAGE_KEY_SETTINGS with
  | none => getDefaultSettings
  | some data =>
    if !jsTruthy (some data) then getDefaultSettings
    else
      let settings := if jsTruthy (jsGet data "settings")
        then (jsGet data "settings").getD .jnull else data
      validateSettings settings

def getDefaultUIState : JVal :=
  .jobj [
    ("theme", .jstr "light"),
    ("sidebarOpen", .jbool false),
    ("filters", .jobj [
      ("status", .jstr "all"),
      ("priority", .jstr "all"),
      ("searchQuery", .jstr "")])]

/-- Optional chaining v.k1?.k2 on parsed JSON values. -/
def jsGetChain (v : JVal) (k1 k2 : String) : Option JVal :=
  match jsGet v k1 with
  | none => none
  | some f => jsGet f k2

/-- StorageService.validateUIState. -/
def validateUIState (uiState : JVal) : JVal :=
  if !jsTruthy (some uiState) || !jsIsObjectType uiState then getDefaultUIState
  else
    .jobj [
      ("theme", if jsGet uiState "theme" == some (JVal.jstr "light") ||
          jsGet uiState "theme" == some (JVal.jstr "dark")
        then (jsGet uiState "theme").getD .jnull else .jstr "light"),
      ("sidebarOpen", .jbool (jsTruthy (jsGet uiState "sidebarOpen"))),
      ("filters", .jobj [
        ("status", if jsGetChain uiState "filters" "status" == some (JVal.jstr "all") ||
            jsGetChain uiState "filters" "status" == some (JVal.jstr "active") ||
            jsGetChain uiState "filters" "status" == some (JVal.jstr "completed")
          then (jsGetChain uiState "filters" "status").getD .jnull else .jstr "all"),
        ("priority", if jsGetChain uiState "filters" "priority" == some (JVal.jstr "all") ||
            jsGetChain uiState "filters" "priority" == some (JVal.jstr "low") ||
            jsGetChain uiState "filters" "priority" == some (JVal.jstr "medium") ||
            jsGetChain uiState "filters" "priority" == some (JVal.jstr "high")
          then (jsGetChain uiState "filters" "priority").getD .jnull else .jstr "all"),
        ("searchQuery", .jstr (jsSubstring0 (jvalToString (
            if jsTruthy (jsGetChain uiState "filters" "searchQuery")
            then (jsGetChain uiState "filters" "searchQuery").getD .jnull
            else .jstr "")) 200))])]

/-- StorageService.filterUIStateForStorage: keeps only theme and filters.
A field whose value is undefined is dropped here, matching its omission by
JSON.stringify when the record is serialized. -/
def filterUIStateForStorage (uiState : JVal) : JVal :=
  .jobj (([("theme", jsGet uiState "theme"), ("filters", jsGet uiState "filters")]).filterMap
    (fun p => match p.2 with
      | some v => some (p.1, v)
      | none => none))

def saveUIState (sto : Storage) (now : String) (uiState : JVal) : Bool × Storage :=
  let filteredState := filterUIStateForStorage uiState
  let dataToStore : JVal := .jobj [
    ("uiState", filteredState),
    ("timestamp", .jstr now),
    ("version", .jstr CURRENT_VERSION)]
  match setItem sto STORAGE_KEY_UI_STATE dataToStore with
  | (.error _, st2) => (false, st2)
  | (.ok _, st2) => (true, st2)

def loadUIState (sto : Storage) : JVal :=
  match getItem sto STORAGE_KEY_UI_STATE with
  | none => getDefaultUIState
  | some data =>
    if !jsTruthy (some data) then getDefaultUIState
    else
      let uiState := if jsTruthy (jsGet data "uiState")
        then (jsGet data "uiState").getD .jnull else data
      validateUIState uiState

/-! ### Backup and restore (StorageService.exportData / importData) -/

/-- navigator.userAgent is environment-dependent; modelled as a constant. -/
def navigatorUserAgent : String := "Mozilla/5.0"

/-- StorageService.exportData: loads the three records (loadTasks may write,
when migrating a legacy record) and pretty-prints the interchange object. -/
def exportData (sto : Storage) (now : String) : String × Storage :=
  let (tasks, st1) := loadTasks sto now
  let settings := loadSettings st1
  let uiState := loadUIState st1
  let exportObj : JVal := .jobj [
    ("version", .jstr CURRENT_VERSION),
    ("timestamp", .jstr now),
    ("tasks", .jarr tasks),
    ("settings", settings),
    ("uiState", uiState),
    ("metadata", .jobj [
      ("taskCount", .jnum tasks.length),
      ("exportedBy", .jstr "Todo List MVP"),
      ("userAgent", .jstr navigatorUserAgent)])]
  (exportObj.stringifyPretty 0, st1)

/-- StorageService.validateImportData.  The version check calls startsWith
on data.version, which throws a TypeError when that field is truthy but not
a string; the error propagates to importData's outer catch. -/
def validateImportData (data : JVal) : Except String Bool :=
  if !jsTruthy (some data) || !jsIsObjectType data then .ok false
  else if !(jsTruthy (jsGet data "tasks") && jsIsArray (jsGet data "tasks")) then .ok false
  else if jsTruthy (jsGet data "version") then
    match jsGet data "version" with
    | some (.jstr v) => .ok (jsStartsWith v "1.")
    | _ => .error "data.version.startsWith is not a function"
  else .ok true

structure ImportResult where
  success : Bool
  importedTasks : Nat
  importedSettings : Nat
  importedUiState : Nat
deriving Repr, DecidableEq

def importTaskCount (data : JVal) : Nat :=
  match jsGet data "tasks" with
  | some (.jarr l) => l.length
  | _ => 0

/-- StorageService.importData.  After parsing and structural validation it
creates a backup via exportData and then applies the three save functions in
sequence.  Those save functions catch their own failures and merely return
false, so the inner catch block of the source (restore the backup, rethrow)
is unreachable: a failed save leaves earlier and later saves applied and the
operation still reports success. -/
def importData (sto : Storage) (now : String) (jsonData : String) :
    Except String (ImportResult × Storage) :=
  match jsonParse jsonData with
  | none => .error "Failed to import data: Unexpected token"
  | some data =>
    match validateImportData data with
    | .error e => .error ("Failed to import data: " ++ e)
    | .ok false => .error "Failed to import data: Invalid import data format"
    | .ok true =>
      let (_backupData, st1) := exportData sto now
      let st2 := if jsTruthy (jsGet data "tasks")
        then (saveTasks st1 now ((jsGet data "tasks").getD .jnull)).2 else st1
      let st3 := if jsTruthy (jsGet data "settings")
        then (saveSettings st2 now ((jsGet data "settings").getD .jnull)).2 else st2
      let st4 := if jsTruthy (jsGet data "uiState")
        then (saveUIState st3 now ((jsGet data "uiState").getD .jnull)).2 else st3
      .ok ({ success := true,
             importedTasks := importTaskCount data,
             importedSettings := if jsTruthy (jsGet data "settings") then 1 else 0,
             importedUiState := if jsTruthy (jsGet data "uiState") then 1 else 0 }, st4)

/-! ### Typed task records

Tasks constructed by the TaskManager/StateManager operations always carry
all seven fields with these types; completedAt null is none. -/

structure Task where
  id : String
  title : String
  completed : Bool
  priority : String
  createdAt : String
  updatedAt : String
  completedAt : Option String
deriving Repr, DecidableEq, Inhabited

/-- The spec's Task invariant: completedAt is present exactly when the task
is completed. -/
def TaskInv (t : Task) : Prop :=
  t.completedAt.isSome = t.completed

instance (t : Task) : Decidable (TaskInv t) := by
  unfold TaskInv; infer_instance

/-! ### Application state (stateManager.js)

A function updater passed to setState returns an object that REPLACES the
whole state (applyUpdates returns updates(deepClone(currentState))
directly), so fields the updater does not mention become absent.  Every
top-level field is therefore an Option; none models an absent (undefined)
field.  The ui sub-object can likewise be reconstructed partially (via
object spread of a possibly-undefined previous value), so its fields are
Options too.  Filters, settings and statistics objects are only ever built
whole by the modelled flows. -/

structure Filters where
  status : String
  priority : String
  searchQuery : String
deriving Repr, DecidableEq

structure NotificationSt where
  message : String
  kind : String
  visible : Bool
  autoHide : Bool
  duration : Nat
  id : Option String
deriving Repr, DecidableEq

structure UIState where
  theme : Option String := none
  sidebarOpen : Option Bool := none
  modalOpen : Option Bool := none
  currentModal : Option (Option String) := none
  notification : Option NotificationSt := none
  loading : Option Bool := none
  editingTaskId : Option (Option String) := none
  selectedTaskIds : Option (List String) := none
deriving Repr, DecidableEq

structure SettingsSt where
  maxTasks : Nat
  autoSave : Bool
  confirmDeletion : Bool
  showCompletedTasks : Bool
  taskSortBy : String
  taskSortDirection : String
deriving Repr, DecidableEq

structure Statistics where
  totalTasks : Nat
  completedTasks : Nat
  activeTasks : Nat
  todayCreated : Nat
  todayCompleted : Nat
deriving Repr, DecidableEq

structure AppState where
  tasks : Option (List Task) := none
  filters : Option Filters := none
  ui : Option UIState := none
  settings : Option SettingsSt := none
  statistics : Option Statistics := none
  lastUpdated : Option String := none
deriving Repr, DecidableEq

/-- StateManager.getInitialState. -/
def getInitialState (now : String) : AppState :=
  { tasks := some [],
    filters := some { status := "all", priority := "all", searchQuery := "" },
    ui := some {
      theme := some "light",
      sidebarOpen := some false,
      modalOpen := some false,
      currentModal := some none,
      notification := some {
        message := "", kind := "info", visible := false,
        autoHide := true, duration := 5000, id := none },
      loading := some false,
      editingTaskId := some none,
      selectedTaskIds := some [] },
    settings := some {
      maxTasks := 1000, autoSave := true, confirmDeletion := true,
      showCompletedTasks := true, taskSortBy := "createdAt",
      taskSortDirection := "desc" },
    statistics := some {
      totalTasks := 0, completedTasks := 0, activeTasks := 0,
      todayCreated := 0, todayCompleted := 0 },
    lastUpdated := some now }

/-- The only plain-object patches the program ever passes to setState are of
the shape left-brace tasks: ... right-brace (taskManager.init and
loadFromStorage), so the patch type records just that field; mergeDeep
assigns an array field wholesale. -/
structure StatePatch where
  tasks : Option (List Task) := none
deriving Repr, DecidableEq

/-- setState accepts either a function of the (cloned) current state or a
plain patch object; the source resolves this by runtime type inspection.
A function updater may throw (modelled by Except), and its result object
becomes the entire next state. -/
inductive Update where
  | transform (f : AppState → Except String AppState)
  | patch (p : StatePatch)

/-- StateManager.applyUpdates. -/
def applyUpdates (currentState : AppState) (updates : Update) : Except String AppState :=
  match updates with
  | .transform f => f currentState
  | .patch p =>
    match p.tasks with
    | none => .ok currentState
    | some ts => .ok { currentState with tasks := some ts }

/-- A middleware receives (state, previousState, source) and returns a
replacement state, a falsy value (keep the state), or throws (caught and
ignored per middleware). -/
def Middleware : Type :=
  AppState → AppState → String → Except String (Option AppState)

/-- StateManager.applyMiddleware: left fold with per-middleware catch. -/
def applyMiddleware (mws : List Middleware) (newState prevState : AppState)
    (source : String) : AppState :=
  mws.foldl (fun st mw =>
    match mw st prevState source with
    | .error _ => st
    | .ok none => st
    | .ok (some st2) => st2) newState

structure HistEntry where
  state : AppState
  timestamp : String
  source : String
deriving Repr, DecidableEq

/-- One synchronous subscriber fan-out event: every registered callback is
invoked with (newState, previousState, source) before setState returns. -/
structure Notif where
  newState : AppState
  prevState : AppState
  source : String
deriving Repr, DecidableEq

structure StateManager where
  state : AppState
  middleware : List Middleware
  history : List HistEntry
  maxHistorySize : Nat := 50
  isUpdating : Bool
  notifLog : List Notif

/-- StateManager.addToHistory: push a deep clone of the previous state and
evict the oldest entry past the bound. -/
def addToHistory (sm : StateManager) (prev : AppState) (now source : String) :
    StateManager :=
  let h := sm.history ++ [{ state := prev, timestamp := now, source := source }]
  { sm with history := if h.length > sm.maxHistorySize then h.drop 1 else h }

/-- now.toISOString().split('T')[0]. -/
def todayOf (now : String) : String :=
  String.mk (now.data.takeWhile (fun c => c ≠ 'T'))

def computeStatistics (tasks : List Task) (today : String) : Statistics :=
  { totalTasks := tasks.length,
    completedTasks := (tasks.filter (fun t => t.completed)).length,
    activeTasks := (tasks.filter (fun t => !t.completed)).length,
    todayCreated := (tasks.filter (fun t => jsStartsWith t.createdAt today)).length,
    todayCompleted := (tasks.filter (fun t => t.completed &&
      (match t.completedAt with
       | some c => jsStartsWith c today
       | none => false))).length }

/-- StateManager.updateStatistics: reads this.state.tasks; throws a
TypeError when the tasks field is absent. -/
def updateStatistics (st : AppState) (now : String) : Except String AppState :=
  match st.tasks with
  | none => .error "TypeError: cannot read properties of undefined"
  | some ts => .ok { st with statistics := some (computeStatistics ts (todayOf now)) }

/-- StateManager.setState.  A reentrant call (isUpdating already set) only
logs and returns.  Otherwise the body runs under try/finally: on an update
or statistics exception the catch block runs handleStateError — whose
showNotification call is itself a reentrant setState and therefore a no-op —
and the finally clause clears isUpdating on every exit path.  On success the
state is replaced, lastUpdated stamped, the previous state pushed onto the
bounded history, statistics recomputed, and all subscribers notified
synchronously before the call returns. -/
def setState (sm : StateManager) (updates : Update) (source now : String) :
    StateManager :=
  if sm.isUpdating then sm
  else
    let previousState := sm.state
    match applyUpdates sm.state updates with
    | .error _ => { sm with isUpdating := false }
    | .ok newState =>
      let processedState := applyMiddleware sm.middleware newState previousState source
      let st1 := { processedState with lastUpdated := some now }
      let sm1 := addToHistory { sm with state := st1 } previousState now source
      match updateStatistics sm1.state now with
      | .error _ => { sm1 with isUpdating := false }
      | .ok st2 =>
        { sm1 with
          state := st2,
          notifLog := sm1.notifLog ++
            [{ newState := st2, prevState := previousState, source := source }],
          isUpdating := false }

/-- StateManager.getState returns a deep clone; on pure values the clone is
the value itself (reference aliasing is modelled separately). -/
def smGetState (sm : StateManager) : AppState := sm.state

/-- StateManager.getTask: reads this.state.tasks.find, throwing when the
tasks field is absent; an unmatched id yields null. -/
def smGetTask (sm : StateManager) (taskId : String) : Except String (Option Task) :=
  match sm.state.tasks with
  | none => .error "TypeError: cannot read properties of undefined"
  | some ts => .ok (ts.find? (fun t => t.id = taskId))

/-- StateManager.getAllTasks: spreads this.state.tasks into a fresh array
(throws when absent). -/
def smGetAllTasks (sm : StateManager) : Except String (List Task) :=
  match sm.state.tasks with
  | none => .error "TypeError: spread of undefined"
  | some ts => .ok ts

/-! ### Input validation (validation.js TaskValidator) -/

def isWordChar (c : Char) : Bool :=
  ('a' ≤ c && c ≤ 'z') || ('A' ≤ c && c ≤ 'Z') || ('0' ≤ c && c ≤ '9') || c = '_'

def wsThenEq : List Char → Bool
  | [] => false
  | c :: cs => if c.isWhitespace then wsThenEq cs else c = '='

def wordRest : List Char → Bool
  | [] => false
  | c :: cs => if isWordChar c then wordRest cs else wsThenEq (c :: cs)

def wordThenEq : List Char → Bool
  | [] => false
  | c :: cs => if isWordChar c then wordRest (c :: cs) else false

def onAt : List Char → Bool
  | 'o' :: 'n' :: cs => wordThenEq cs
  | _ => false

/-- Scan for the inline-event-handler pattern (on, one or more word
characters, optional whitespace, equals sign), case-insensitivity being
handled by lowering the input first. -/
def hasOnEventPattern : List Char → Bool
  | [] => false
  | c :: cs => onAt (c :: cs) || hasOnEventPattern cs

/-- TaskValidator.containsDangerousContent.  The script-element regular
expression of the source requires an opening and a matching closing script
tag; it is modelled as the presence of both tag substrings. -/
def containsDangerousContent (s : String) : Bool :=
  let lower := jsToLower s
  (strIncludes lower "<script" && strIncludes lower "</script>") ||
  strIncludes lower "javascript:" ||
  hasOnEventPattern lower.data ||
  strIncludes lower "<iframe" ||
  strIncludes lower "<object" ||
  strIncludes lower "<embed" ||
  strIncludes lower "<link" ||
  strIncludes lower "<meta"

/-- TaskValidator.validateTitle, returning the error list.  The none input
models an absent or non-string title (both fail the typeof check). -/
def validateTaskTitle (title : Option String) : List String :=
  match title with
  | none => ["Task title is required and must be text"]
  | some s =>
    if s = "" then ["Task title is required and must be text"]
    else
      let trimmed := jsTrim s
      if trimmed = "" then ["Task title cannot be empty"]
      else
        (if trimmed.length > 500 then ["Task title must be less than 500 characters"] else []) ++
        (if containsDangerousContent trimmed then ["Task title contains invalid characters"] else [])

/-- TaskValidator.validatePriority, returning the error list; a falsy
priority is valid (defaulted). -/
def validateTaskPriority (p : String) : List String :=
  if p = "" then []
  else if p = "low" || p = "medium" || p = "high" then []
  else ["Priority must be one of: low, medium, high"]

/-- The argument of TaskManager.createTask; none fields are absent (or, for
the title, of non-string type). -/
structure TaskInput where
  title : Option String := none
  priority : Option String := none
deriving Repr, DecidableEq

/-- TaskManager.validateTaskData, returning the collected error list. -/
def validateTaskData (input : TaskInput) : List String :=
  validateTaskTitle input.title ++
    (match input.priority with
     | some p => if p ≠ "" then validateTaskPriority p else []
     | none => [])

/-- The patch argument of TaskManager.updateTask; a none field models an
undefined (absent) property. -/
structure UpdatesArg where
  title : Option String := none
  completed : Option Bool := none
  priority : Option String := none
deriving Repr, DecidableEq

/-- TaskManager.validateTaskUpdates. -/
def validateTaskUpdates (u : UpdatesArg) : List String :=
  (match u.title with
   | some t => validateTaskTitle (some t)
   | none => []) ++
  (match u.priority with
   | some p => validateTaskPriority p
   | none => [])

/-! ### The running task system

TaskManager plus its singleton StateManager plus the debounced persistence
channel, as wired after TaskManager.init has subscribed.  A call to
storage.saveTasks is one persistence-write attempt; its argument (the tasks
value passed, possibly undefined) is recorded on the saveCalls trace.  The
500 ms debounce timer is a restartable one-slot channel: pendingSave holds
the arguments of the last debouncedSave call of the open window, and
flushDebounce models the timer firing, which issues one further
storage.saveTasks call with those arguments. -/

structure TaskSystem where
  sm : StateManager
  cache : List (String × Task)
  pendingSave : Option (Option (List Task))
  saveCalls : List (Option (List Task))

def cacheGet (cache : List (String × Task)) (taskId : String) : Option Task :=
  (cache.find? (fun p => p.1 = taskId)).map (·.2)

def cacheSet : List (String × Task) → String → Task → List (String × Task)
  | [], k, v => [(k, v)]
  | (k1, v1) :: rest, k, v =>
    if k1 = k then (k, v) :: rest else (k1, v1) :: cacheSet rest k v

def cacheDelete (cache : List (String × Task)) (taskId : String) : List (String × Task) :=
  cache.filter (fun p => p.1 ≠ taskId)

/-- The auto-save subscriber registered by TaskManager.init: for every
notification whose source is not taskManager.init it restarts the debounce
timer with newState.tasks.  (The source also compares newState.tasks and
prevState.tasks by reference, but those are always distinct objects because
both sides are rebuilt by deep cloning on every update, so the comparison
never suppresses a save.) -/
def applySubscriberEffects (sys : TaskSystem) (smNew : StateManager) : TaskSystem :=
  let newEvents := smNew.notifLog.drop sys.sm.notifLog.length
  { sys with
    sm := smNew,
    pendingSave := newEvents.foldl (fun pend ev =>
      if ev.source ≠ "taskManager.init" then some ev.newState.tasks else pend)
      sys.pendingSave }

/-- The id that showNotification generates for the notification record;
no modelled observer reads it, so it is a fixed constant. -/
def notifGeneratedId : String := "notification_id"

/-- StateManager.showNotification as invoked from TaskManager.handleError
(autoHide true, duration 5000).  Its function updater returns an object
containing only the ui field — the rest of the state becomes absent — and
spreads the possibly-undefined previous ui object. -/
def sysShowNotification (sys : TaskSystem) (message kind now : String) : TaskSystem :=
  let notif : NotificationSt := {
    message := message, kind := kind, visible := true,
    autoHide := true, duration := 5000, id := some notifGeneratedId }
  let sm1 := setState sys.sm (.transform (fun st =>
    .ok { ui := some { (st.ui.getD {}) with notification := some notif } }))
    "showNotification" now
  applySubscriberEffects sys sm1

/-- TaskManager.handleError: emits an app-error event and shows an error
notification. -/
def sysHandleError (sys : TaskSystem) (userMessage now : String) : TaskSystem :=
  sysShowNotification sys userMessage "error" now

/-! ### StateManager task operations (each one also writes through
storage.saveTasks with the post-update this.state.tasks) -/

/-- The shape shared by every task-mutating function updater of the
StateManager: read state.tasks (throwing a TypeError when absent) and
return an object holding only the rewritten tasks array. -/
def tasksTransform (msg : String) (f : List Task → List Task) : Update :=
  .transform (fun st =>
    match st.tasks with
    | none => .error msg
    | some ts => .ok { tasks := some (f ts) })

/-- StateManager.addTask.  The trailing object spread writes every field of
taskData over the freshly generated defaults, so for the fully-populated
records the TaskManager passes the stored task is taskData itself (the
internally generated id is overwritten by the spread). -/
def sysStateAddTask (sys : TaskSystem) (taskData : Task) (now : String) :
    Task × TaskSystem :=
  let task := taskData
  let sm1 := setState sys.sm
    (tasksTransform "TypeError: spread of undefined" (fun ts => ts ++ [task])) "addTask" now
  let sys1 := applySubscriberEffects sys sm1
  let sys2 := { sys1 with saveCalls := sys1.saveCalls ++ [sm1.state.tasks] }
  (task, sys2)

structure SanUpdates where
  title : Option String := none
  completed : Option Bool := none
  completedAt : Option (Option String) := none
  priority : Option String := none
deriving Repr, DecidableEq

/-- The spread-then-stamp merge newTasks[i] = previous fields, updates
fields, updatedAt now. -/
def applySanUpdates (t : Task) (u : SanUpdates) (now : String) : Task :=
  { t with
    title := u.title.getD t.title,
    completed := u.completed.getD t.completed,
    completedAt := u.completedAt.getD t.completedAt,
    priority := u.priority.getD t.priority,
    updatedAt := now }

/-- StateManager.updateTask. -/
def sysStateUpdateTask (sys : TaskSystem) (taskId : String) (updates : SanUpdates)
    (now : String) : Except String Task × TaskSystem :=
  match sys.sm.state.tasks with
  | none => (.error "TypeError: cannot read properties of undefined", sys)
  | some ts =>
    match ts.findIdx? (fun t => t.id = taskId) with
    | none => (.error ("Task with id " ++ taskId ++ " not found"), sys)
    | some taskIndex =>
      let sm1 := setState sys.sm
        (tasksTransform "TypeError: spread of undefined"
          (fun ts2 => ts2.set taskIndex (applySanUpdates (ts2.getD taskIndex default) updates now)))
        "updateTask" now
      let sys1 := applySubscriberEffects sys sm1
      let sys2 := { sys1 with saveCalls := sys1.saveCalls ++ [sm1.state.tasks] }
      match sm1.state.tasks with
      | none => (.error "TypeError: cannot read properties of undefined", sys2)
      | some ts3 => (.ok (ts3.getD taskIndex default), sys2)

/-- StateManager.deleteTask. -/
def sysStateDeleteTask (sys : TaskSystem) (taskId now : String) :
    Except String Task × TaskSystem :=
  match sys.sm.state.tasks with
  | none => (.error "TypeError: cannot read properties of undefined", sys)
  | some ts =>
    match ts.find? (fun t => t.id = taskId) with
    | none => (.error ("Task with id " ++ taskId ++ " not found"), sys)
    | some task =>
      let sm1 := setState sys.sm
        (tasksTransform "TypeError: filter of undefined"
          (fun ts2 => ts2.filter (fun t => t.id ≠ taskId)))
        "deleteTask" now
      let sys1 := applySubscriberEffects sys sm1
      let sys2 := { sys1 with saveCalls := sys1.saveCalls ++ [sm1.state.tasks] }
      (.ok task, sys2)

/-- StateManager.toggleTaskComplete: reads the current completed flag from
the state and delegates to updateTask with the flipped flag and the paired
completedAt (now on completion, null on un-completion). -/
def sysStateToggleTask (sys : TaskSystem) (taskId now : String) :
    Except String Task × TaskSystem :=
  match sys.sm.state.tasks with
  | none => (.error "TypeError: cannot read properties of undefined", sys)
  | some ts =>
    match ts.find? (fun t => t.id = taskId) with
    | none => (.error ("Task with id " ++ taskId ++ " not found"), sys)
    | some task =>
      let wasCompleted := task.completed
      let updates : SanUpdates := {
        completed := some (!wasCompleted),
        completedAt := some (if !wasCompleted then some now else none) }
      sysStateUpdateTask sys taskId updates now

/-! ### TaskManager operations -/

/-- TaskManager.getTask: consults the cache first, falls back to the state
and caches a hit there. -/
def tmGetTask (sys : TaskSystem) (taskId : String) :
    Except String (Option Task) × TaskSystem :=
  match cacheGet sys.cache taskId with
  | some t => (.ok (some t), sys)
  | none =>
    match smGetTask sys.sm taskId with
    | .error e => (.error e, sys)
    | .ok none => (.ok none, sys)
    | .ok (some t) => (.ok (some t), { sys with cache := cacheSet sys.cache taskId t })

/-- TaskManager.createTask.  On validation failure the catch block runs
handleError (notification via a reentrancy-free setState) and rethrows; on
success the constructed task is appended through StateManager.addTask and
cached. -/
def tmCreateTask (sys : TaskSystem) (input : TaskInput) (freshId now : String) :
    Except String Task × TaskSystem :=
  let errs := validateTaskData input
  if errs = [] then
    let task : Task := {
      id := freshId,
      title := sanitizeHtml (jsTrim (input.title.getD "")),
      completed := false,
      priority := (match input.priority with
        | some p => if p ≠ "" then p else "medium"
        | none => "medium"),
      createdAt := now,
      updatedAt := now,
      completedAt := none }
    let (newTask, sys1) := sysStateAddTask sys task now
    (.ok newTask, { sys1 with cache := cacheSet sys1.cache task.id newTask })
  else
    (.error (String.intercalate ", " errs), sysHandleError sys "Failed to create task" now)

/-- TaskManager.updateTask. -/
def tmUpdateTask (sys : TaskSystem) (taskId : String) (updates : UpdatesArg)
    (now : String) : Except String Task × TaskSystem :=
  if taskId = "" then
    (.error "Task ID is required", sysHandleError sys "Failed to update task" now)
  else
    match tmGetTask sys taskId with
    | (.error e, sys1) => (.error e, sysHandleError sys1 "Failed to update task" now)
    | (.ok none, sys1) =>
      (.error ("Task with ID " ++ taskId ++ " not found"),
       sysHandleError sys1 "Failed to update task" now)
    | (.ok (some existingTask), sys1) =>
      let errs := validateTaskUpdates updates
      if errs = [] then
        let sanitizedUpdates : SanUpdates := {
          title := updates.title.map (fun t => sanitizeHtml (jsTrim t)),
          completed := updates.completed,
          completedAt := (match updates.completed with
            | some b =>
              if b && !existingTask.completed then some (some now)
              else if !b && existingTask.completed then some none
              else none
            | none => none),
          priority := updates.priority }
        match sysStateUpdateTask sys1 taskId sanitizedUpdates now with
        | (.error e, sys2) => (.error e, sysHandleError sys2 "Failed to update task" now)
        | (.ok updatedTask, sys2) =>
          (.ok updatedTask, { sys2 with cache := cacheSet sys2.cache taskId updatedTask })
      else
        (.error (String.intercalate ", " errs),
         sysHandleError sys1 "Failed to update task" now)

/-- TaskManager.deleteTask. -/
def tmDeleteTask (sys : TaskSystem) (taskId now : String) :
    Except String Task × TaskSystem :=
  if taskId = "" then
    (.error "Task ID is required", sysHandleError sys "Failed to delete task" now)
  else
    match tmGetTask sys taskId with
    | (.error e, sys1) => (.error e, sysHandleError sys1 "Failed to delete task" now)
    | (.ok none, sys1) =>
      (.error ("Task with ID " ++ taskId ++ " not found"),
       sysHandleError sys1 "Failed to delete task" now)
    | (.ok (some _), sys1) =>
      match sysStateDeleteTask sys1 taskId now with
      | (.error e, sys2) => (.error e, sysHandleError sys2 "Failed to delete task" now)
      | (.ok deletedTask, sys2) =>
        (.ok deletedTask, { sys2 with cache := cacheDelete sys2.cache taskId })

/-- TaskManager.toggleTaskComplete. -/
def tmToggleTaskComplete (sys : TaskSystem) (taskId now : String) :
    Except String Task × TaskSystem :=
  if taskId = "" then
    (.error "Task ID is required", sysHandleError sys "Failed to toggle task completion" now)
  else
    match tmGetTask sys taskId with
    | (.error e, sys1) => (.error e, sysHandleError sys1 "Failed to toggle task completion" now)
    | (.ok none, sys1) =>
      (.error ("Task with ID " ++ taskId ++ " not found"),
       sysHandleError sys1 "Failed to toggle task completion" now)
    | (.ok (some _), sys1) =>
      match sysStateToggleTask sys1 taskId now with
      | (.error e, sys2) => (.error e, sysHandleError sys2 "Failed to toggle task completion" now)
      | (.ok updatedTask, sys2) =>
        (.ok updatedTask, { sys2 with cache := cacheSet sys2.cache taskId updatedTask })

/-- TaskManager.getAllTasks delegates to the StateManager array copy. -/
def tmGetAllTasks (sys : TaskSystem) : Except String (List Task) :=
  smGetAllTasks sys.sm

/-! ### Search (TaskManager.searchTasks) -/

/-- The possible JavaScript values of the query argument; none of the
non-string carriers are inspected beyond truthiness and typeof. -/
inductive QueryArg where
  | jsUndefined
  | jsNull
  | jsStr (s : String)
  | jsNum (n : Int)
  | jsBool (b : Bool)
  | jsObject
deriving Repr, DecidableEq

def queryTruthy : QueryArg → Bool
  | .jsUndefined => false
  | .jsNull => false
  | .jsStr s => s ≠ ""
  | .jsNum n => n ≠ 0
  | .jsBool b => b
  | .jsObject => true

def queryIsString : QueryArg → Bool
  | .jsStr _ => true
  | _ => false

/-- TaskManager.searchTasks: falsy or non-string queries and queries that
trim to nothing return getAllTasks(); otherwise a case-insensitive substring
filter over the titles.  Any exception is caught and reported as the empty
list. -/
def searchTasks (sys : TaskSystem) (query : QueryArg) : List Task :=
  let result : Except String (List Task) :=
    if !queryTruthy query || !queryIsString query then tmGetAllTasks sys
    else
      match query with
      | .jsStr s =>
        let searchQuery := jsTrim (jsToLower s)
        if searchQuery.length = 0 then tmGetAllTasks sys
        else
          match tmGetAllTasks sys with
          | .error e => .error e
          | .ok allTasks =>
            .ok (allTasks.filter (fun t => strIncludes (jsToLower t.title) searchQuery))
      | _ => tmGetAllTasks sys
  match result with
  | .ok r => r
  | .error _ => []

/-! ### Operation sequences and the debounce window -/

inductive TMOp where
  | createOp (input : TaskInput) (freshId now : String)
  | updateOp (taskId : String) (updates : UpdatesArg) (now : String)
  | deleteOp (taskId now : String)
  | toggleOp (taskId now : String)

/-- Run one facade operation, reporting whether it succeeded. -/
def execOp (sys : TaskSystem) : TMOp → Bool × TaskSystem
  | .createOp input freshId now =>
    match tmCreateTask sys input freshId now with
    | (.ok _, s) => (true, s)
    | (.error _, s) => (false, s)
  | .updateOp taskId updates now =>
    match tmUpdateTask sys taskId updates now with
    | (.ok _, s) => (true, s)
    | (.error _, s) => (false, s)
  | .deleteOp taskId now =>
    match tmDeleteTask sys taskId now with
    | (.ok _, s) => (true, s)
    | (.error _, s) => (false, s)
  | .toggleOp taskId now =>
    match tmToggleTaskComplete sys taskId now with
    | (.ok _, s) => (true, s)
    | (.error _, s) => (false, s)

def runOps (sys : TaskSystem) : List TMOp → TaskSystem
  | [] => sys
  | op :: rest => runOps (execOp sys op).2 rest

/-- All operations of the sequence succeed when run in order. -/
def opsOk (sys : TaskSystem) : List TMOp → Bool
  | [] => true
  | op :: rest => (execOp sys op).1 && opsOk (execOp sys op).2 rest

/-- The debounce timer fires at the close of the window: if a save is
pending, exactly one further storage.saveTasks call is issued with the
arguments of the last debouncedSave of the window. -/
def flushDebounce (sys : TaskSystem) : TaskSystem :=
  match sys.pendingSave with
  | none => sys
  | some args => { sys with pendingSave := none, saveCalls := sys.saveCalls ++ [args] }

/-- The task collection as held by the system (empty when the tasks field
is absent). -/
def tasksOf (sys : TaskSystem) : List Task :=
  sys.sm.state.tasks.getD []

/-- The state the running application is actually in between facade calls:
no update in flight, the middleware list empty (the program never registers
any middleware), and the tasks field present. -/
def goodSys (sys : TaskSystem) : Prop :=
  sys.sm.isUpdating = false ∧ sys.sm.middleware = [] ∧ ∃ ts, sys.sm.state.tasks = some ts

/-! ### Sorting (TaskManager.sortTasks)

The source comparator returns -1/0/1 from comparisons of a per-field sort
key: the lowercased title, the numeric priority rank (with unknown values
ranking as medium), the completed flag as 0/1, or the raw timestamp string.
For such a consistent comparator the ECMAScript specification pins
Array.prototype.sort down to the unique stable sort by the total preorder
(compare a b ≤ 0), which List.mergeSort with the boolean translation of
that preorder computes. -/

inductive SKey where
  | str (s : String)
  | num (n : Nat)
deriving Repr, DecidableEq

def sKeyLe : SKey → SKey → Bool
  | .str a, .str b => decide (a.data ≤ b.data)
  | .num a, .num b => decide (a ≤ b)
  | .str _, .num _ => true
  | .num _, .str _ => false

/-- The priorityOrder map with the or-2 fallback for unknown values. -/
def priorityOrder (p : String) : Nat :=
  if p = "low" then 1
  else if p = "medium" then 2
  else if p = "high" then 3
  else 2

def validSortFields : List String :=
  ["createdAt", "updatedAt", "title", "priority", "completed"]

/-- Invalid sort fields fall back to createdAt. -/
def effSortField (sortBy : String) : String :=
  if validSortFields.contains sortBy then sortBy else "createdAt"

/-- The comparator's per-field sort key. -/
def sortKey (sortBy : String) (t : Task) : SKey :=
  if sortBy = "title" then .str (jsToLower t.title)
  else if sortBy = "priority" then .num (priorityOrder t.priority)
  else if sortBy = "completed" then .num (if t.completed then 1 else 0)
  else if sortBy = "updatedAt" then .str t.updatedAt
  else .str t.createdAt

/-- compare a b ≤ 0 for the source comparator: ascending key order for the
asc direction, reversed key order otherwise (any direction value other than
asc means descending). -/
def taskLe (sortBy direction : String) (a b : Task) : Bool :=
  if direction = "asc" then sKeyLe (sortKey sortBy a) (sortKey sortBy b)
  else sKeyLe (sortKey sortBy b) (sortKey sortBy a)

/-- TaskManager.sortTasks (source defaults: sortBy createdAt, direction
desc; a non-array input returns []). -/
def sortTasks (tasks : List Task) (sortBy direction : String) : List Task :=
  tasks.mergeSort (taskLe (effSortField sortBy) direction)

/-! ### Reference aliasing of the read API (for the copy-isolation contract)

JavaScript objects live on a heap and variables hold references.  The heap
is a list of task cells addressed by index; the StateManager's collection
is a list of cell addresses.  deepClone (used by getState) allocates fresh
cells; find (used by getTask) returns the address of the found cell; the
array spread (used by getAllTasks) builds a fresh list of the same
addresses.  An external caller mutating through a returned address is a
heapWrite at that address. -/

structure TaskHeap where
  cells : List Task
deriving Repr, DecidableEq

def heapRead (h : TaskHeap) (a : Nat) : Task :=
  h.cells.getD a default

def heapWrite (h : TaskHeap) (a : Nat) (t : Task) : TaskHeap :=
  ⟨h.cells.set a t⟩

/-- The StateManager's internal this.state.tasks as cell references. -/
structure SMRefs where
  taskAddrs : List Nat
deriving Repr, DecidableEq

/-- The task values the container itself observes through its references. -/
def internalTasks (h : TaskHeap) (s : SMRefs) : List Task :=
  s.taskAddrs.map (heapRead h)

/-- StateManager.getTask: find returns the reference of the matching cell
(no copy). -/
def getTaskRef (h : TaskHeap) (s : SMRefs) (taskId : String) : Option Nat :=
  s.taskAddrs.find? (fun a => (heapRead h a).id = taskId)

/-- StateManager.getAllTasks: a fresh array whose elements are the same
references. -/
def getAllTasksRefs (s : SMRefs) : List Nat :=
  s.taskAddrs

/-- StateManager.getState: deepClone copies every task into freshly
allocated cells and returns the new references. -/
def getStateClone (h : TaskHeap) (s : SMRefs) : TaskHeap × List Nat :=
  (⟨h.cells ++ s.taskAddrs.map (heapRead h)⟩,
   (List.range s.taskAddrs.length).map (fun i => h.cells.length + i))

/-! ### The persisted-task pairing invariant at the JSON level -/

/-- Is the completedAt field of a validated task record present and
non-null? -/
def jCompletedAtPresent (t : JVal) : Bool :=
  match jsGet t "completedAt" with
  | some .jnull => false
  | some _ => true
  | none => false

def jCompletedTrue (t : JVal) : Bool :=
  jsGet t "completed" == some (JVal.jbool true)

/-- The claimed invariant, read off a persisted-and-validated task record:
completedAt is present (non-null) exactly when completed is true. -/
def jTaskInv (t : JVal) : Bool :=
  jCompletedAtPresent t == jCompletedTrue t

/-! ### Concrete fixtures for witnesses and counterexamples -/

def now0 : String := "2025-06-01T12:00:00.000Z"

/-- A store whose persisted tasks record is not parseable JSON. -/
def corruptStore : Storage :=
  { isAvailable := true, store := [(STORAGE_KEY_TASKS, "not-json-parseable")] }

/-- A string of n copies of one character. -/
def repChar (n : Nat) (c : Char) : String :=
  String.mk (List.replicate n c)

/-- A store already holding six mebibytes under an application key. -/
def bigStore : Storage :=
  { isAvailable := true, store := [(STORAGE_KEY_VERSION, repChar 6291456 'x')] }

/-- A raw persisted task that claims completed false (field absent) while
carrying a non-null completedAt, as a manual edit or legacy write could. -/
def rawBad : JVal :=
  .jobj [("id", .jstr "t1"), ("title", .jstr "Call mom"),
         ("completedAt", .jstr "2025-05-30T10:00:00.000Z")]

/-- The persisted record holding rawBad. -/
def badPersisted : String :=
  JVal.stringify (.jobj [("tasks", .jarr [rawBad])])

def badStore : Storage :=
  { isAvailable := true, store := [(STORAGE_KEY_TASKS, badPersisted)] }

/-- What validateTasks makes of rawBad: completed coerced to false, yet the
truthy completedAt passed through — both loaded and held. -/
def loadedBad : JVal :=
  .jobj [("id", .jstr "t1"), ("title", .jstr "Call mom"),
         ("completed", .jbool false), ("priority", .jstr "medium"),
         ("createdAt", .jstr now0), ("updatedAt", .jstr now0),
         ("completedAt", .jstr "2025-05-30T10:00:00.000Z")]

/-- A freshly initialized system: initial state, registered auto-save
subscriber, empty cache, no pending debounce, no writes issued. -/
def sysInit0 : TaskSystem :=
  { sm := { state := getInitialState now0, middleware := [], history := [],
            isUpdating := false, notifLog := [] },
    cache := [], pendingSave := none, saveCalls := [] }

def smIdle0 : StateManager :=
  { state := getInitialState now0, middleware := [], history := [],
    isUpdating := false, notifLog := [] }

def smBusy0 : StateManager :=
  { state := getInitialState now0, middleware := [], history := [],
    isUpdating := true, notifLog := [] }

def taskA : Task :=
  { id := "task_a", title := "Alpha", completed := false, priority := "low",
    createdAt := "2025-06-01T10:00:00.000Z", updatedAt := "2025-06-01T10:00:00.000Z",
    completedAt := none }

def taskB : Task :=
  { id := "task_b", title := "beta", completed := true, priority := "high",
    createdAt := "2025-06-01T11:00:00.000Z", updatedAt := "2025-06-01T11:30:00.000Z",
    completedAt := some "2025-06-01T11:30:00.000Z" }

def taskC : Task :=
  { id := "task_c", title := "Beta", completed := false, priority := "low",
    createdAt := "2025-06-01T09:00:00.000Z", updatedAt := "2025-06-01T09:00:00.000Z",
    completedAt := none }

def inputBuyMilk : TaskInput := { title := some "  Buy milk  " }

/-- Two rapid-fire creations inside one debounce window. -/
def op1 : TMOp := .createOp { title := some "Task one" } "task_1" now0

def op2 : TMOp := .createOp { title := some "Task two" } "task_2" now0

/-- A valid title containing an HTML-special character. -/
def inputAngle : TaskInput := { title := some "a<b" }

/-- A one-task heap with the container referencing cell 0. -/
def heap0 : TaskHeap := ⟨[taskA]⟩

def refs0 : SMRefs := ⟨[0]⟩

/-- What an external caller writes through the reference it received. -/
def taskMut : Task := { taskA with title := "MUTATED" }

/-- A system already holding taskA and taskB (tasks present, idle, no
middleware). -/
def sysTwo : TaskSystem :=
  { sm := { state := { getInitialState now0 with tasks := some [taskA, taskB] },
            middleware := [], history := [], isUpdating := false, notifLog := [] },
    cache := [], pendingSave := none, saveCalls := [] }

/-! ### Fixtures for C4: a store in which the imported tasks record
overflows the quota while the imported settings record exactly fits. -/

/-- The import payload: one task and a settings object. -/
def impStrC4 : String :=
  "\x7b\"tasks\":[\x7b\"id\":\"a\",\"title\":\"b\"\x7d],\"settings\":\x7b\x7d\x7d"

/-- The parse of impStrC4. -/
def impDataC4 : JVal :=
  .jobj [("tasks", .jarr [.jobj [("id", .jstr "a"), ("title", .jstr "b")]]),
         ("settings", .jobj [])]

/-- The pre-import persisted tasks record (new object format, so that the
backup pass reads it without writing); 55 UTF-8 bytes. -/
def tOldStrC4 : String :=
  "\x7b\"tasks\":[\x7b\"id\":\"o1\",\"title\":\"Old\"\x7d],\"version\":\"1.0.0\"\x7d"

/-- Junk occupying the version key, sized so that used space is
5242880 - 204: the 204-byte settings record exactly fits, the 226-byte
tasks record overflows. -/
def junkLenC4 : Nat := 5242621

def store0C4 : Storage :=
  { isAvailable := true,
    store := [(STORAGE_KEY_TASKS, tOldStrC4),
              (STORAGE_KEY_VERSION, repChar junkLenC4 'x')] }

/-- The imported task as normalized by validateTasks. -/
def vtListC4 : List JVal :=
  [.jobj [("id", .jstr "a"), ("title", .jstr "b"),
          ("completed", .jbool false), ("priority", .jstr "medium"),
          ("createdAt", .jstr now0), ("updatedAt", .jstr now0),
          ("completedAt", .jnull)]]

/-- The tasks record saveTasks would persist for the imported task. -/
def dataT4 : JVal :=
  .jobj [("tasks", .jarr vtListC4), ("timestamp", .jstr now0),
         ("version", .jstr CURRENT_VERSION)]

/-- The settings record saveSettings persists for the imported (empty)
settings object. -/
def dataS4 : JVal :=
  .jobj [("settings", validateSettings (.jobj [])), ("timestamp", .jstr now0),
         ("version", .jstr CURRENT_VERSION)]

/-- The store importData leaves behind: tasks record unchanged (its write
hit the quota and was swallowed), settings record written. -/
def stoF4 : Storage :=
  { isAvailable := true,
    store := [(STORAGE_KEY_TASKS, tOldStrC4),
              (STORAGE_KEY_VERSION, repChar junkLenC4 'x'),
              (STORAGE_KEY_SETTINGS, JVal.stringify dataS4)] }

/-! ## Theorems -/

/-! ### Shared helper lemmas -/

theorem utf8Go_replicate (n : Nat) (c : Char) :
    String.utf8ByteSize.go (List.replicate n c) = n * c.utf8Size := by
  induction n with
  | zero => simp [String.utf8ByteSize.go]
  | succ k ih =>
    simp only [List.replicate_succ, String.utf8ByteSize.go, ih]
    ring

theorem repChar_size (n : Nat) (c : Char) :
    (repChar n c).utf8ByteSize = n * c.utf8Size := by
  show String.utf8ByteSize.go (List.replicate n c) = n * c.utf8Size
  exact utf8Go_replicate n c

theorem bigStore_used : (getStorageInfo bigStore).used = 6291456 := by
  have h1 : blobSize (repChar 6291456 'x') = 6291456 := by
    show (repChar 6291456 'x').utf8ByteSize = 6291456
    rw [repChar_size]
    rfl
  simp [getStorageInfo, bigStore, STORAGE_KEYS_LIST, localStorageGetItem,
    STORAGE_KEY_TASKS, STORAGE_KEY_SETTINGS, STORAGE_KEY_UI_STATE, STORAGE_KEY_VERSION,
    List.find?, h1]

/-! ### C7 — corrupt persisted data is treated as absent -/

/-- Claim C7: for every stored tasks record whose deserialization fails,
the read treats the value as absent: loadTasks returns the empty collection
and does not throw, leaving the store unchanged. -/
theorem loadTasks_corrupt_returns_empty (sto : Storage) (now s : String)
    (hav : sto.isAvailable = true)
    (hs : localStorageGetItem sto.store STORAGE_KEY_TASKS = some s)
    (hp : jsonParse s = none) :
    loadTasks sto now = ([], sto) := by
  have hget : getItem sto STORAGE_KEY_TASKS = none := by
    unfold getItem
    rw [hav, hs]
    by_cases he : s = "" <;> simp [he, hp]
  unfold loadTasks
  rw [hget]

/-- Witness for C7 at the simulated-corruption store. -/
theorem loadTasks_corrupt_returns_empty_witness :
    loadTasks corruptStore now0 = ([], corruptStore) :=
  loadTasks_corrupt_returns_empty corruptStore now0 "not-json-parseable"
    rfl rfl rfl

/-! ### C5 — quota-exceeding writes fail atomically -/

/-- Claim C5: a put whose serialized size plus current usage exceeds the
5 MiB ceiling fails with the quota error and leaves the persisted contents
untouched (the write is checked before localStorage.setItem runs). -/
theorem setItem_quota_all_or_nothing (sto : Storage) (key : String) (value : JVal)
    (hav : sto.isAvailable = true)
    (h : (getStorageInfo sto).used + blobSize value.stringify > MAX_STORAGE_SIZE) :
    setItem sto key value = (.error "Storage quota exceeded", sto) := by
  unfold setItem
  rw [hav]
  simp only [Bool.not_true, Bool.false_eq_true, if_false]
  rw [if_pos h]

/-- Witness for C5: a 6 MiB occupant makes even a four-byte record
overflow, and the store is returned unchanged. -/
theorem setItem_quota_all_or_nothing_witness :
    setItem bigStore STORAGE_KEY_TASKS .jnull = (.error "Storage quota exceeded", bigStore) := by
  apply setItem_quota_all_or_nothing bigStore STORAGE_KEY_TASKS .jnull rfl
  rw [bigStore_used]
  have h4 : ("null" : String).utf8ByteSize = 4 := rfl
  simp [blobSize, JVal.stringify, MAX_STORAGE_SIZE, h4]

/-! ### C6 — reentrancy guard and return to Idle -/

/-- Claim C6: a setState call made while an update is in progress leaves
the container unchanged (reentrant no-op), and from the Idle state every
exit of setState — after a successful update, after an updater exception,
or after a statistics exception — clears the Updating flag; on a
successful update the single subscriber fan-out event for this update is
appended to the log before setState returns, so notification completes
before any next setState can run. -/
theorem setState_reentrancy_and_idle (sm : StateManager) (u : Update) (src now : String) :
    (sm.isUpdating = true → setState sm u src now = sm) ∧
    (sm.isUpdating = false →
      (setState sm u src now).isUpdating = false ∧
      ((setState sm u src now).notifLog = sm.notifLog ∨
        ∃ ev : Notif, ev.source = src ∧
          (setState sm u src now).notifLog = sm.notifLog ++ [ev])) := by
  constructor
  · intro h
    unfold setState
    rw [h]
    simp
  · intro h
    unfold setState
    rw [h]
    simp only [Bool.false_eq_true, if_false]
    split
    · exact ⟨rfl, Or.inl rfl⟩
    · split
      · exact ⟨rfl, Or.inl rfl⟩
      · rename_i st2 _
        exact ⟨rfl, Or.inr ⟨{ newState := st2, prevState := sm.state, source := src },
          rfl, rfl⟩⟩

/-- Witness for C6: the concrete busy container ignores a patch, and the
concrete idle container is idle again after a patch. -/
theorem setState_reentrancy_and_idle_witness :
    setState smBusy0 (.patch {}) "ui" now0 = smBusy0 ∧
    (setState smIdle0 (.patch {}) "ui" now0).isUpdating = false :=
  ⟨(setState_reentrancy_and_idle smBusy0 (.patch {}) "ui" now0).1 rfl,
   ((setState_reentrancy_and_idle smIdle0 (.patch {}) "ui" now0).2 rfl).1⟩

/-! ### C10 — degenerate search queries return the whole collection -/

/-- Claim C10: for a query that is null or undefined, not a string, or
consists only of whitespace after trimming (the empty string included),
searchTasks returns the entire current task collection unchanged; being a
total function it never throws. -/
theorem searchTasks_degenerate (sys : TaskSystem) (q : QueryArg) (ts : List Task)
    (htasks : sys.sm.state.tasks = some ts)
    (hq : queryTruthy q = false ∨ queryIsString q = false ∨
      ∃ s, q = .jsStr s ∧ jsTrim (jsToLower s) = "") :
    searchTasks sys q = ts := by
  have hall : tmGetAllTasks sys = .ok ts := by
    unfold tmGetAllTasks smGetAllTasks
    rw [htasks]
  unfold searchTasks
  rcases hq with h1 | h2 | ⟨s, rfl, hs⟩
  · rw [h1]
    simp [hall]
  · rw [h2]
    simp [hall]
  · by_cases htr : queryTruthy (QueryArg.jsStr s) = false
    · rw [htr]
      simp [hall]
    · simp only [Bool.not_eq_false] at htr
      rw [htr]
      simp only [queryIsString, Bool.not_true, Bool.or_self, Bool.false_or]
      rw [hs]
      simp [hall]

/-- Witness for C10: a whitespace-only query on the two-task system. -/
theorem searchTasks_degenerate_witness :
    searchTasks sysTwo (.jsStr "   ") = [taskA, taskB] :=
  searchTasks_degenerate sysTwo (.jsStr "   ") [taskA, taskB] rfl
    (Or.inr (Or.inr ⟨"   ", rfl, by decide⟩))

/-! ### Evaluation lemmas for the task-mutating state transitions -/

/-- What setState does to an idle, middleware-free container under one of
the task-rewriting function updaters: the new state holds exactly the
rewritten tasks, the recomputed statistics and the stamp (everything else
is absent, since the updater returned a tasks-only object), the previous
state is pushed onto the bounded history, one notification is fanned out,
and the container is idle again. -/
theorem setState_tasksTransform (sm : StateManager) (msg : String)
    (f : List Task → List Task) (src now : String) (ts : List Task)
    (hupd : sm.isUpdating = false) (hmw : sm.middleware = [])
    (hts : sm.state.tasks = some ts) :
    setState sm (tasksTransform msg f) src now =
      { sm with
        state := { tasks := some (f ts),
                   statistics := some (computeStatistics (f ts) (todayOf now)),
                   lastUpdated := some now },
        history :=
          (if (sm.history ++ [({ state := sm.state, timestamp := now, source := src } : HistEntry)]).length >
              sm.maxHistorySize
           then (sm.history ++ [({ state := sm.state, timestamp := now, source := src } : HistEntry)]).drop 1
           else sm.history ++ [({ state := sm.state, timestamp := now, source := src } : HistEntry)]),
        notifLog := sm.notifLog ++ [{
          newState := { tasks := some (f ts),
                        statistics := some (computeStatistics (f ts) (todayOf now)),
                        lastUpdated := some now },
          prevState := sm.state, source := src }],
        isUpdating := false } := by
  simp only [setState, applyUpdates, tasksTransform, applyMiddleware, addToHistory,
    updateStatistics, hupd, hmw, hts, List.foldl_nil, Bool.false_eq_true, if_false]

/-- The debounce effect of the single notification produced by one task
mutation: the pending save is replaced by the freshly notified tasks. -/
theorem applySubscriberEffects_single (sys : TaskSystem) (smNew : StateManager)
    (ev : Notif) (h : smNew.notifLog = sys.sm.notifLog ++ [ev])
    (hsrc : ev.source ≠ "taskManager.init") :
    applySubscriberEffects sys smNew =
      { sys with sm := smNew, pendingSave := some ev.newState.tasks } := by
  unfold applySubscriberEffects
  rw [h, List.drop_left]
  simp [hsrc]

/-- Whatever setState makes of a task-rewriting function updater under an
empty middleware list: a task held afterwards was either already held
(reentrant call, or absent tasks making the updater throw, leave the field
untouched) or belongs to the rewritten collection. -/
theorem mem_setState_tasksTransform {sm : StateManager} {msg : String}
    {f : List Task → List Task} {src now : String} (hmw : sm.middleware = [])
    {t2 : Task}
    (ht2 : t2 ∈ (setState sm (tasksTransform msg f) src now).state.tasks.getD []) :
    t2 ∈ sm.state.tasks.getD [] ∨ ∃ ts, sm.state.tasks = some ts ∧ t2 ∈ f ts := by
  cases hupd : sm.isUpdating with
  | true =>
    left
    unfold setState at ht2
    rw [hupd] at ht2
    simp only [if_pos] at ht2
    exact ht2
  | false =>
    cases hts : sm.state.tasks with
    | none =>
      left
      simp only [setState, applyUpdates, tasksTransform, hupd, hts, Bool.false_eq_true,
        if_false] at ht2
      exact ht2
    | some ts =>
      right
      rw [setState_tasksTransform sm msg f src now ts hupd hmw hts] at ht2
      exact ⟨ts, rfl, by simpa using ht2⟩

/-! ### C2 — the completed/completedAt pairing -/

set_option maxRecDepth 8000 in
/-- Counterexample to claim C2 as stated: a persisted task with completed
absent (coerced to false) and a truthy completedAt passes
StorageService.validateTasks untouched, so loading yields a task held in
the Application State with completedAt present yet completed false. -/
theorem completedAt_pairing_counterexample :
    (loadTasks badStore now0).1 = [loadedBad] ∧
    jCompletedTrue loadedBad = false ∧
    jCompletedAtPresent loadedBad = true ∧
    jTaskInv loadedBad = false :=
  ⟨by rfl, rfl, rfl, rfl⟩

/-- Claim C2 as amended: the pairing invariant is maintained by the task
operations themselves — toggling keeps every stored task paired (the
toggled task unconditionally so), and a created task starts not completed
with completedAt absent — but it is not enforced by validateTasks, so
loaded persisted data may violate it (see the counterexample). -/
theorem completedAt_pairing_ops (sys : TaskSystem) (hmw : sys.sm.middleware = []) :
    (∀ taskId now, (∀ t ∈ tasksOf sys, TaskInv t) →
       ∀ t2 ∈ tasksOf (sysStateToggleTask sys taskId now).2, TaskInv t2) ∧
    (∀ input freshId now task sys2,
       tmCreateTask sys input freshId now = (.ok task, sys2) →
       task.completed = false ∧ task.completedAt = none ∧
       ((∀ t ∈ tasksOf sys, TaskInv t) → ∀ t2 ∈ tasksOf sys2, TaskInv t2)) := by
  constructor
  · intro taskId now hinv t2 ht2
    unfold sysStateToggleTask at ht2
    split at ht2
    · exact hinv t2 ht2
    · split at ht2
      · exact hinv t2 ht2
      · rename_i ts hts task hfind
        unfold sysStateUpdateTask at ht2
        split at ht2
        · exact hinv t2 ht2
        · split at ht2
          · exact hinv t2 ht2
          · rename_i ts3 hts3 idx hidx
            dsimp only at ht2
            split at ht2 <;>
            · simp only [tasksOf, applySubscriberEffects] at ht2
              rcases mem_setState_tasksTransform hmw ht2 with hmem | ⟨ts4, hts4, hmem⟩
              · exact hinv t2 hmem
              · rcases List.mem_or_eq_of_mem_set hmem with hmem2 | hset
                · refine hinv t2 ?_
                  simp only [tasksOf, hts4]
                  exact hmem2
                · subst hset
                  cases hc : task.completed <;>
                    simp [applySanUpdates, TaskInv, hc]
  · intro input freshId now task sys2 heq
    unfold tmCreateTask at heq
    by_cases hval : validateTaskData input = []
    · rw [if_pos hval] at heq
      simp only [sysStateAddTask, Prod.mk.injEq, Except.ok.injEq] at heq
      obtain ⟨htask, hsys2⟩ := heq
      subst htask
      subst hsys2
      refine ⟨rfl, rfl, ?_⟩
      intro hinv t2 ht2
      simp only [tasksOf, applySubscriberEffects] at ht2
      rcases mem_setState_tasksTransform hmw ht2 with hmem | ⟨ts, hts, hmem⟩
      · exact hinv t2 hmem
      · rcases List.mem_append.mp hmem with hmem2 | hmem2
        · refine hinv t2 ?_
          simp only [tasksOf, hts]
          exact hmem2
        · rw [List.mem_singleton.mp hmem2]
          simp [TaskInv]
    · rw [if_neg hval] at heq
      exact absurd (congrArg Prod.fst heq) (by simp)

/-- Witness for the amended C2 on a concrete two-task system. -/
theorem completedAt_pairing_ops_witness :
    sysTwo.sm.middleware = [] ∧
    ((∀ taskId now, (∀ t ∈ tasksOf sysTwo, TaskInv t) →
       ∀ t2 ∈ tasksOf (sysStateToggleTask sysTwo taskId now).2, TaskInv t2) ∧
     (∀ input freshId now task sys2,
       tmCreateTask sysTwo input freshId now = (.ok task, sys2) →
       task.completed = false ∧ task.completedAt = none ∧
       ((∀ t ∈ tasksOf sysTwo, TaskInv t) → ∀ t2 ∈ tasksOf sys2, TaskInv t2))) :=
  ⟨rfl, completedAt_pairing_ops sysTwo rfl⟩

/-! ### C3 — copies versus live references on the read API -/

/-- Counterexample to claim C3 as stated: getTask hands out the reference
of the stored cell itself, so mutating the returned task changes the
internal Application State observed by subsequent reads. -/
theorem getTask_live_reference_counterexample :
    getTaskRef heap0 refs0 "task_a" = some 0 ∧
    internalTasks (heapWrite heap0 0 taskMut) refs0 ≠ internalTasks heap0 refs0 :=
  ⟨rfl, by decide⟩

/-- Claim C3 as amended: only getState returns a deep, independent copy —
its result lives in freshly allocated cells, and writing through any of
them leaves every internal read unchanged — while getTask returns a live
reference into the internal collection and getAllTasks returns a fresh
array of those same live references. -/
theorem reads_reference_semantics (h : TaskHeap) (s : SMRefs)
    (hvalid : ∀ a ∈ s.taskAddrs, a < h.cells.length) :
    (∀ taskId a, getTaskRef h s taskId = some a → a ∈ s.taskAddrs) ∧
    getAllTasksRefs s = s.taskAddrs ∧
    (∀ a, a ∈ (getStateClone h s).2 → a ∉ s.taskAddrs) ∧
    (∀ a t2, a ∈ (getStateClone h s).2 →
      internalTasks (heapWrite (getStateClone h s).1 a t2) s = internalTasks h s) := by
  have haddr : ∀ a, a ∈ (getStateClone h s).2 → h.cells.length ≤ a := by
    intro a ha
    simp only [getStateClone, List.mem_map, List.mem_range] at ha
    obtain ⟨i, _, rfl⟩ := ha
    omega
  refine ⟨?_, rfl, ?_, ?_⟩
  · intro taskId a hfind
    exact List.mem_of_find?_eq_some hfind
  · intro a ha hmem
    exact absurd (hvalid a hmem) (by have := haddr a ha; omega)
  · intro a t2 ha
    unfold internalTasks
    apply List.map_congr_left
    intro b hb
    have hblt : b < h.cells.length := hvalid b hb
    have hba : b ≠ a := by have := haddr a ha; omega
    unfold heapRead heapWrite getStateClone
    simp only []
    rw [List.getD_eq_getElem?_getD, List.getD_eq_getElem?_getD,
      List.getElem?_set_ne (by omega), List.getElem?_append_left hblt]

/-- Witness for the amended C3 on the one-task heap: getTask's result is an
internal reference, and writing through the getState clone's fresh cell
leaves the internal view unchanged. -/
theorem reads_reference_semantics_witness :
    0 ∈ refs0.taskAddrs ∧
    internalTasks (heapWrite (getStateClone heap0 refs0).1 1 taskMut) refs0 =
      internalTasks heap0 refs0 :=
  ⟨(reads_reference_semantics heap0 refs0 (by decide)).1 "task_a" 0 rfl,
   (reads_reference_semantics heap0 refs0 (by decide)).2.2.2 1 taskMut (by decide)⟩

/-! ### C9 — createTask followed by getTask -/

theorem cacheGet_cacheSet (c : List (String × Task)) (k : String) (v : Task) :
    cacheGet (cacheSet c k v) k = some v := by
  induction c with
  | nil => simp [cacheGet, cacheSet, List.find?]
  | cons p rest ih =>
    obtain ⟨k1, v1⟩ := p
    by_cases hk : k1 = k
    · simp [cacheSet, hk, cacheGet, List.find?]
    · simp only [cacheSet, if_neg hk]
      simp only [cacheGet, List.find?] at ih ⊢
      rw [decide_eq_false hk]
      exact ih

/-- Claim C9 as amended: for a valid input, createTask returns a task whose
title is the HTML-escaped trimmed input title (equal to the trimmed title
whenever no HTML-special character occurs in it), whose priority is the
input priority with medium as the default, not completed, completedAt
absent — and getTask on the fresh id returns that very task. -/
theorem createTask_getTask_spec (sys : TaskSystem) (input : TaskInput)
    (freshId now s : String)
    (htitle : input.title = some s)
    (hvalid : validateTaskData input = []) :
    (tmCreateTask sys input freshId now).1 =
      .ok { id := freshId, title := sanitizeHtml (jsTrim s), completed := false,
            priority := (match input.priority with
              | some p => if p ≠ "" then p else "medium"
              | none => "medium"),
            createdAt := now, updatedAt := now, completedAt := none } ∧
    (tmGetTask (tmCreateTask sys input freshId now).2 freshId).1 =
      .ok (some
            { id := freshId, title := sanitizeHtml (jsTrim s), completed := false,
              priority := (match input.priority with
                | some p => if p ≠ "" then p else "medium"
                | none => "medium"),
              createdAt := now, updatedAt := now, completedAt := none }) := by
  unfold tmCreateTask
  rw [if_pos hvalid, htitle]
  simp only [Option.getD_some, sysStateAddTask]
  constructor
  · trivial
  · unfold tmGetTask
    rw [cacheGet_cacheSet]

/-- Witness for C9 at the example input of the spec. -/
theorem createTask_getTask_spec_witness :
    (tmCreateTask sysInit0 inputBuyMilk "task_1" now0).1 =
      .ok { id := "task_1", title := "Buy milk", completed := false, priority := "medium",
            createdAt := now0, updatedAt := now0, completedAt := none } ∧
    (tmGetTask (tmCreateTask sysInit0 inputBuyMilk "task_1" now0).2 "task_1").1 =
      .ok (some
            { id := "task_1", title := "Buy milk", completed := false,
              priority := "medium", createdAt := now0, updatedAt := now0,
              completedAt := none }) :=
  createTask_getTask_spec sysInit0 inputBuyMilk "task_1" now0 "  Buy milk  "
    rfl (by decide)

/-- Counterexample to claim C9 as stated: the valid title a-less-than-b is
HTML-escaped by sanitizeHtml, so the created task's title differs from the
trimmed input title. -/
theorem createTask_title_escaped_counterexample :
    (tmCreateTask sysInit0 inputAngle "task_x" now0).1 =
      .ok { id := "task_x", title := "a&lt;b", completed := false, priority := "medium",
            createdAt := now0, updatedAt := now0, completedAt := none } ∧
    "a&lt;b" ≠ jsTrim "a<b" :=
  ⟨by rfl, by decide⟩

/-! ### C8 — sortTasks is a deterministic stable sort -/

theorem sKeyLe_refl (a : SKey) : sKeyLe a a := by
  cases a <;> simp [sKeyLe]

theorem sKeyLe_trans : ∀ (a b c : SKey), sKeyLe a b → sKeyLe b c → sKeyLe a c := by
  intro a b c h1 h2
  cases a <;> cases b <;> cases c <;>
    simp only [sKeyLe, decide_eq_true_eq] at h1 h2 ⊢ <;>
    first
      | trivial
      | exact le_trans h1 h2

theorem sKeyLe_total : ∀ (a b : SKey), sKeyLe a b || sKeyLe b a := by
  intro a b
  cases a <;> cases b <;>
    simp only [sKeyLe, Bool.or_eq_true, decide_eq_true_eq] <;>
    first
      | trivial
      | exact le_total _ _

theorem taskLe_trans (sortBy direction : String) :
    ∀ (a b c : Task), taskLe sortBy direction a b → taskLe sortBy direction b c →
      taskLe sortBy direction a c := by
  intro a b c h1 h2
  unfold taskLe at h1 h2 ⊢
  by_cases hd : direction = "asc"
  · rw [if_pos hd] at h1 h2 ⊢
    exact sKeyLe_trans _ _ _ h1 h2
  · rw [if_neg hd] at h1 h2 ⊢
    exact sKeyLe_trans _ _ _ h2 h1

theorem taskLe_total (sortBy direction : String) :
    ∀ (a b : Task), taskLe sortBy direction a b || taskLe sortBy direction b a := by
  intro a b
  unfold taskLe
  by_cases hd : direction = "asc"
  · simp only [if_pos hd]
    exact sKeyLe_total _ _
  · simp only [if_neg hd]
    rw [Bool.or_comm]
    exact sKeyLe_total _ _

/-- Claim C8: sortTasks is deterministic (it is a pure function of its
arguments) and computes, for every field and direction, a permutation of
the input that is sorted under the comparator order — low before medium
before high for priority, case-insensitive for title, false before true
for completed, reversed for the descending direction — while elements with
equal sort keys keep their original relative order regardless of
direction. -/
theorem sortTasks_spec (ts : List Task) (sortBy direction : String) :
    List.Perm (sortTasks ts sortBy direction) ts ∧
    (sortTasks ts sortBy direction).Pairwise
      (fun a b => taskLe (effSortField sortBy) direction a b) ∧
    (∀ a b, sortKey (effSortField sortBy) a = sortKey (effSortField sortBy) b →
      List.Sublist [a, b] ts → List.Sublist [a, b] (sortTasks ts sortBy direction)) := by
  unfold sortTasks
  refine ⟨List.mergeSort_perm ts _,
    List.sorted_mergeSort (taskLe_trans (effSortField sortBy) direction)
      (taskLe_total (effSortField sortBy) direction) ts, ?_⟩
  intro a b hkey hsub
  apply List.pair_sublist_mergeSort (taskLe_trans (effSortField sortBy) direction)
    (taskLe_total (effSortField sortBy) direction) ?_ hsub
  unfold taskLe
  rw [hkey]
  by_cases hd : direction = "asc"
  · rw [if_pos hd]
    exact sKeyLe_refl _
  · rw [if_neg hd]
    exact sKeyLe_refl _

/-- Witness for C8: sorting three tasks by priority descending permutes
them, and the two equal-priority tasks keep their original relative
order. -/
theorem sortTasks_spec_witness :
    List.Perm (sortTasks [taskB, taskA, taskC] "priority" "desc") [taskB, taskA, taskC] ∧
    List.Sublist [taskA, taskC] (sortTasks [taskB, taskA, taskC] "priority" "desc") :=
  ⟨(sortTasks_spec [taskB, taskA, taskC] "priority" "desc").1,
   (sortTasks_spec [taskB, taskA, taskC] "priority" "desc").2.2 taskA taskC
     (by decide) (by decide)⟩

/-! ### C1 — writes issued inside one debounce window -/

/-- The three possible outcomes of TaskManager.getTask: a cache hit, a
clean miss, or a state hit that also populates the cache. -/
theorem tmGetTask_cases (sys : TaskSystem) (taskId : String) (ts : List Task)
    (hts : sys.sm.state.tasks = some ts) :
    (∃ t, cacheGet sys.cache taskId = some t ∧
      tmGetTask sys taskId = (.ok (some t), sys)) ∨
    (cacheGet sys.cache taskId = none ∧ ts.find? (fun t => t.id = taskId) = none ∧
      tmGetTask sys taskId = (.ok none, sys)) ∨
    (∃ t, cacheGet sys.cache taskId = none ∧ ts.find? (fun t => t.id = taskId) = some t ∧
      tmGetTask sys taskId = (.ok (some t), { sys with cache := cacheSet sys.cache taskId t })) := by
  unfold tmGetTask smGetTask
  cases hc : cacheGet sys.cache taskId with
  | some t => exact Or.inl ⟨t, rfl, rfl⟩
  | none =>
    rw [hts]
    dsimp only
    cases hfind : ts.find? (fun t => t.id = taskId) with
    | none => exact Or.inr (Or.inl ⟨rfl, rfl, rfl⟩)
    | some t => exact Or.inr (Or.inr ⟨t, rfl, rfl, rfl⟩)

/-- The debounce effect of the single notification appended by one state
update, in unconditional form: a non-init source replaces the pending save
with the freshly notified tasks. -/
theorem applySubscriberEffects_record (sys : TaskSystem) (st : AppState)
    (mw : List Middleware) (hist : List HistEntry) (mx : Nat) (upd : Bool) (ev : Notif) :
    applySubscriberEffects sys
      { state := st, middleware := mw, history := hist, maxHistorySize := mx,
        isUpdating := upd, notifLog := sys.sm.notifLog ++ [ev] } =
      { sys with
        sm := { state := st, middleware := mw, history := hist, maxHistorySize := mx,
                isUpdating := upd, notifLog := sys.sm.notifLog ++ [ev] },
        pendingSave := if ev.source ≠ "taskManager.init" then some ev.newState.tasks
                       else sys.pendingSave } := by
  unfold applySubscriberEffects
  simp only [List.drop_left, List.foldl]

/-- One successful facade operation in the good running state: exactly one
immediate storage.saveTasks call is appended, carrying the task collection
as it stands after the operation, and the debounce timer is left pending
with that same collection; the system stays in the good state. -/
theorem execOp_step (sys : TaskSystem) (op : TMOp)
    (hupd : sys.sm.isUpdating = false) (hmw : sys.sm.middleware = [])
    (ts : List Task) (hts : sys.sm.state.tasks = some ts)
    (hsucc : (execOp sys op).1 = true) :
    ∃ ts2, (execOp sys op).2.sm.state.tasks = some ts2 ∧
      (execOp sys op).2.sm.isUpdating = false ∧
      (execOp sys op).2.sm.middleware = [] ∧
      (execOp sys op).2.saveCalls = sys.saveCalls ++ [some ts2] ∧
      (execOp sys op).2.pendingSave = some (some ts2) := by
  cases op with
  | createOp input freshId now =>
    unfold execOp tmCreateTask at hsucc ⊢
    dsimp only at hsucc ⊢
    by_cases hval : validateTaskData input = []
    · rw [if_pos hval]
      unfold sysStateAddTask
      dsimp only
      rw [setState_tasksTransform sys.sm _ _ _ _ _ hupd hmw hts]
      rw [applySubscriberEffects_record]
      exact ⟨_, rfl, rfl, hmw, rfl, rfl⟩
    · rw [if_neg hval] at hsucc
      exact absurd hsucc (by simp)
  | updateOp taskId updates now =>
    unfold execOp tmUpdateTask at hsucc ⊢
    dsimp only at hsucc ⊢
    by_cases hid : taskId = ""
    · rw [if_pos hid] at hsucc
      exact absurd hsucc (by simp)
    · rw [if_neg hid] at hsucc ⊢
      rcases tmGetTask_cases sys taskId ts hts with ⟨t, _, hg⟩ | ⟨_, _, hg⟩ | ⟨t, _, _, hg⟩ <;>
        rw [hg] at hsucc ⊢ <;> dsimp only at hsucc ⊢
      · by_cases hvu : validateTaskUpdates updates = []
        · rw [if_pos hvu]
          unfold sysStateUpdateTask at hsucc ⊢
          rw [hts] at hsucc ⊢
          dsimp only at hsucc ⊢
          cases hidx : ts.findIdx? (fun t2 => t2.id = taskId) with
          | none =>
            simp only [if_pos hvu, hidx] at hsucc
            exact absurd hsucc (by simp)
          | some idx =>
            dsimp only
            rw [setState_tasksTransform sys.sm _ _ _ _ _ hupd hmw hts]
            rw [applySubscriberEffects_record]
            exact ⟨_, rfl, rfl, hmw, rfl, rfl⟩
        · rw [if_neg hvu] at hsucc
          exact absurd hsucc (by simp)
      · exact absurd hsucc (by simp)
      · by_cases hvu : validateTaskUpdates updates = []
        · rw [if_pos hvu]
          unfold sysStateUpdateTask at hsucc ⊢
          dsimp only at hsucc ⊢
          rw [hts] at hsucc ⊢
          dsimp only at hsucc ⊢
          cases hidx : ts.findIdx? (fun t2 => t2.id = taskId) with
          | none =>
            simp only [if_pos hvu, hidx] at hsucc
            exact absurd hsucc (by simp)
          | some idx =>
            dsimp only
            rw [setState_tasksTransform sys.sm _ _ _ _ _ hupd hmw hts]
            rw [applySubscriberEffects_record]
            exact ⟨_, rfl, rfl, hmw, rfl, rfl⟩
        · rw [if_neg hvu] at hsucc
          exact absurd hsucc (by simp)
  | deleteOp taskId now =>
    unfold execOp tmDeleteTask at hsucc ⊢
    dsimp only at hsucc ⊢
    by_cases hid : taskId = ""
    · rw [if_pos hid] at hsucc
      exact absurd hsucc (by simp)
    · rw [if_neg hid] at hsucc ⊢
      rcases tmGetTask_cases sys taskId ts hts with ⟨t, _, hg⟩ | ⟨_, _, hg⟩ | ⟨t, _, _, hg⟩ <;>
        rw [hg] at hsucc ⊢ <;> dsimp only at hsucc ⊢
      · unfold sysStateDeleteTask at hsucc ⊢
        rw [hts] at hsucc ⊢
        dsimp only at hsucc ⊢
        cases hfind : ts.find? (fun t2 => t2.id = taskId) with
        | none =>
          rw [hfind] at hsucc
          exact absurd hsucc (by simp)
        | some tdel =>
          dsimp only
          rw [setState_tasksTransform sys.sm _ _ _ _ _ hupd hmw hts]
          rw [applySubscriberEffects_record]
          exact ⟨_, rfl, rfl, hmw, rfl, rfl⟩
      · exact absurd hsucc (by simp)
      · unfold sysStateDeleteTask at hsucc ⊢
        dsimp only at hsucc ⊢
        rw [hts] at hsucc ⊢
        dsimp only at hsucc ⊢
        cases hfind : ts.find? (fun t2 => t2.id = taskId) with
        | none =>
          rw [hfind] at hsucc
          exact absurd hsucc (by simp)
        | some tdel =>
          dsimp only
          rw [setState_tasksTransform sys.sm _ _ _ _ _ hupd hmw hts]
          rw [applySubscriberEffects_record]
          exact ⟨_, rfl, rfl, hmw, rfl, rfl⟩
  | toggleOp taskId now =>
    unfold execOp tmToggleTaskComplete at hsucc ⊢
    dsimp only at hsucc ⊢
    by_cases hid : taskId = ""
    · rw [if_pos hid] at hsucc
      exact absurd hsucc (by simp)
    · rw [if_neg hid] at hsucc ⊢
      rcases tmGetTask_cases sys taskId ts hts with ⟨t, _, hg⟩ | ⟨_, _, hg⟩ | ⟨t, _, _, hg⟩ <;>
        rw [hg] at hsucc ⊢ <;> dsimp only at hsucc ⊢
      · unfold sysStateToggleTask sysStateUpdateTask at hsucc ⊢
        rw [hts] at hsucc ⊢
        dsimp only at hsucc ⊢
        cases hfind : ts.find? (fun t2 => t2.id = taskId) with
        | none =>
          rw [hfind] at hsucc
          exact absurd hsucc (by simp)
        | some ttog =>
          rw [hfind] at hsucc
          dsimp only at hsucc ⊢
          cases hidx : ts.findIdx? (fun t2 => t2.id = taskId) with
          | none =>
            rw [hidx] at hsucc
            exact absurd hsucc (by simp)
          | some idx =>
            dsimp only
            rw [setState_tasksTransform sys.sm _ _ _ _ _ hupd hmw hts]
            rw [applySubscriberEffects_record]
            exact ⟨_, rfl, rfl, hmw, rfl, rfl⟩
      · exact absurd hsucc (by simp)
      · unfold sysStateToggleTask sysStateUpdateTask at hsucc ⊢
        dsimp only at hsucc ⊢
        rw [hts] at hsucc ⊢
        dsimp only at hsucc ⊢
        cases hfind : ts.find? (fun t2 => t2.id = taskId) with
        | none =>
          rw [hfind] at hsucc
          exact absurd hsucc (by simp)
        | some ttog =>
          rw [hfind] at hsucc
          dsimp only at hsucc ⊢
          cases hidx : ts.findIdx? (fun t2 => t2.id = taskId) with
          | none =>
            rw [hidx] at hsucc
            exact absurd hsucc (by simp)
          | some idx =>
            dsimp only
            rw [setState_tasksTransform sys.sm _ _ _ _ _ hupd hmw hts]
            rw [applySubscriberEffects_record]
            exact ⟨_, rfl, rfl, hmw, rfl, rfl⟩

/-- Running a successful operation sequence from the good state: each of
the N operations issues its own immediate write, and after the last one the
debounce channel is pending with the final task collection. -/
theorem runOps_trace (ops : List TMOp) (sys : TaskSystem)
    (hupd : sys.sm.isUpdating = false) (hmw : sys.sm.middleware = [])
    (ts : List Task) (hts : sys.sm.state.tasks = some ts)
    (hok : opsOk sys ops = true) :
    ∃ tsf, (runOps sys ops).sm.state.tasks = some tsf ∧
      (runOps sys ops).sm.isUpdating = false ∧
      (runOps sys ops).sm.middleware = [] ∧
      (runOps sys ops).saveCalls.length = sys.saveCalls.length + ops.length ∧
      (ops ≠ [] → (runOps sys ops).pendingSave = some (some tsf)) := by
  induction ops generalizing sys ts with
  | nil =>
    exact ⟨ts, hts, hupd, hmw, by simp [runOps], fun h => absurd rfl h⟩
  | cons op rest ih =>
    rw [opsOk, Bool.and_eq_true] at hok
    obtain ⟨h1, h2⟩ := hok
    obtain ⟨ts2, hts2, hupd2, hmw2, hsave2, hpend2⟩ := execOp_step sys op hupd hmw ts hts h1
    obtain ⟨tsf, htsf, hupdf, hmwf, hlenf, hpendf⟩ := ih (execOp sys op).2 hupd2 hmw2 ts2 hts2 h2
    refine ⟨tsf, by rw [runOps]; exact htsf, by rw [runOps]; exact hupdf,
      by rw [runOps]; exact hmwf, ?_, ?_⟩
    · rw [runOps, hlenf, hsave2]
      simp only [List.length_append, List.length_cons, List.length_nil, List.length]
      omega
    · intro _
      by_cases hrest : rest = []
      · subst hrest
        have hts2f : some ts2 = some tsf := by
          rw [runOps] at htsf
          rw [hts2] at htsf
          exact htsf
        rw [runOps, runOps]
        rw [hpend2, Option.some.inj hts2f]
      · rw [runOps]
        exact hpendf hrest

set_option maxRecDepth 10000 in
/-- Counterexample to claim C1 as stated: two rapid creations inside one
debounce window issue three persistence writes (one immediate write per
mutation from StateManager.addTask plus the single debounced write), not
exactly one. -/
theorem debounce_single_write_counterexample :
    (flushDebounce (runOps sysInit0 [op1, op2])).saveCalls.length ≠ 1 := by
  decide

/-- Claim C1 as amended: N successful mutating operations inside one
debounce window issue N immediate writes (one per operation, each carrying
the collection as of that operation) plus exactly one debounced write at
the close of the window, and that debounced write's content equals the
task collection after the Nth operation — never an earlier intermediate
state. -/
theorem debounced_write_coalesces (sys : TaskSystem) (ops : List TMOp)
    (hupd : sys.sm.isUpdating = false) (hmw : sys.sm.middleware = [])
    (ts : List Task) (hts : sys.sm.state.tasks = some ts)
    (hok : opsOk sys ops = true) (hne : ops ≠ []) :
    (runOps sys ops).saveCalls.length = sys.saveCalls.length + ops.length ∧
    ∃ tsf, (runOps sys ops).sm.state.tasks = some tsf ∧
      flushDebounce (runOps sys ops) =
        { runOps sys ops with
          pendingSave := none,
          saveCalls := (runOps sys ops).saveCalls ++ [some tsf] } := by
  obtain ⟨tsf, htsf, _, _, hlen, hpend⟩ := runOps_trace ops sys hupd hmw ts hts hok
  refine ⟨hlen, tsf, htsf, ?_⟩
  unfold flushDebounce
  rw [hpend hne]

set_option maxRecDepth 10000 in
/-- Witness for the amended C1 on two concrete creations. -/
theorem debounced_write_coalesces_witness :
    (runOps sysInit0 [op1, op2]).saveCalls.length = sysInit0.saveCalls.length + 2 ∧
    ∃ tsf, (runOps sysInit0 [op1, op2]).sm.state.tasks = some tsf ∧
      flushDebounce (runOps sysInit0 [op1, op2]) =
        { runOps sysInit0 [op1, op2] with
          pendingSave := none,
          saveCalls := (runOps sysInit0 [op1, op2]).saveCalls ++ [some tsf] } :=
  debounced_write_coalesces sysInit0 [op1, op2] rfl rfl [] rfl (by decide)
    (List.cons_ne_nil op1 [op2])

/-! ### C4 — import is not transactional and never restores the backup -/

theorem store0C4_used : (getStorageInfo store0C4).used = 5242676 := by
  have h1 : blobSize (repChar junkLenC4 'x') = 5242621 := by
    show (repChar junkLenC4 'x').utf8ByteSize = 5242621
    rw [repChar_size]
    rfl
  have h2 : blobSize tOldStrC4 = 55 := by decide
  simp [getStorageInfo, store0C4, STORAGE_KEYS_LIST, localStorageGetItem,
    STORAGE_KEY_TASKS, STORAGE_KEY_SETTINGS, STORAGE_KEY_UI_STATE, STORAGE_KEY_VERSION,
    List.find?, h1, h2]

/-- A write whose record overflows the quota returns the store unchanged. -/
theorem setItem_overflow (sto : Storage) (key : String) (value : JVal)
    (hav : sto.isAvailable = true)
    (h : (getStorageInfo sto).used + blobSize value.stringify > MAX_STORAGE_SIZE) :
    setItem sto key value = (.error "Storage quota exceeded", sto) := by
  unfold setItem
  rw [hav]
  simp only [Bool.not_true, Bool.false_eq_true, if_false]
  rw [if_pos h]

/-- A write whose record fits under the quota lands in the store. -/
theorem setItem_fits (sto : Storage) (key : String) (value : JVal)
    (hav : sto.isAvailable = true)
    (h : ¬((getStorageInfo sto).used + blobSize value.stringify > MAX_STORAGE_SIZE)) :
    setItem sto key value =
      (.ok (), { sto with store := localStorageSetItem sto.store key value.stringify }) := by
  unfold setItem
  rw [hav]
  simp only [Bool.not_true, Bool.false_eq_true, if_false]
  rw [if_neg h]

/-- Unwinding StorageService.saveTasks on a successful validation whose
write hits the quota: the failure is swallowed and reported as false. -/
theorem saveTasks_err (sto : Storage) (now : String) (tasks : JVal) (vt : List JVal)
    (hv : validateTasks now tasks = .ok vt)
    (hset : setItem sto STORAGE_KEY_TASKS
      (JVal.jobj [("tasks", JVal.jarr vt), ("timestamp", JVal.jstr now),
                  ("version", JVal.jstr CURRENT_VERSION)]) =
      (.error "Storage quota exceeded", sto)) :
    saveTasks sto now tasks = (false, sto) := by
  unfold saveTasks
  rw [hv]
  dsimp only
  rw [hset]

/-- Unwinding StorageService.saveSettings on a successful write. -/
theorem saveSettings_ok (sto : Storage) (now : String) (settings : JVal) (stoF : Storage)
    (hset : setItem sto STORAGE_KEY_SETTINGS
      (JVal.jobj [("settings", validateSettings settings), ("timestamp", JVal.jstr now),
                  ("version", JVal.jstr CURRENT_VERSION)]) = (.ok (), stoF)) :
    saveSettings sto now settings = (true, stoF) := by
  unfold saveSettings
  dsimp only
  rw [hset]

/-- Unwinding StorageService.importData along the path taken by the C4
scenario: parse and validation succeed, a backup is exported, the tasks
and settings writes run (whatever they return), there is no uiState, and
the operation reports success unconditionally. -/
theorem importData_steps (sto : Storage) (now jsonData : String) (data : JVal)
    (hp : jsonParse jsonData = some data)
    (hv : validateImportData data = .ok true)
    (bk : String) (st1 : Storage) (hexp : exportData sto now = (bk, st1))
    (ht : jsTruthy (jsGet data "tasks") = true)
    (r2 : Bool) (st2 : Storage)
    (hsT : saveTasks st1 now ((jsGet data "tasks").getD .jnull) = (r2, st2))
    (hs : jsTruthy (jsGet data "settings") = true)
    (r3 : Bool) (st3 : Storage)
    (hsS : saveSettings st2 now ((jsGet data "settings").getD .jnull) = (r3, st3))
    (hu : jsTruthy (jsGet data "uiState") = false)
    (n : Nat) (hn : importTaskCount data = n) :
    importData sto now jsonData =
      .ok ({ success := true, importedTasks := n,
             importedSettings := 1, importedUiState := 0 }, st3) := by
  unfold importData
  rw [hp]
  dsimp only
  rw [hv]
  dsimp only
  rw [hexp]
  dsimp only
  simp only [ht, hs, hu, hn, eq_self_iff_true, Bool.false_eq_true, if_true, if_false]
  rw [hsT]
  dsimp only
  rw [hsS]

set_option maxRecDepth 8000 in
/-- Claim C4 refuted (code bug): on an import whose tasks write fails
(quota) after structural validation succeeded, nothing is restored --
saveTasks swallows its own failure and returns false, so importData's
restore-the-backup catch block never runs.  The operation reports
success with importedTasks = 1, the persisted tasks record still equals
the pre-import one, and the settings record has nevertheless been
written: the store is neither fully applied nor rolled back to the
pre-import snapshot. -/
theorem importData_no_rollback :
    importData store0C4 now0 impStrC4 =
      .ok ({ success := true, importedTasks := 1, importedSettings := 1,
             importedUiState := 0 }, stoF4) ∧
    (saveTasks store0C4 now0 ((jsGet impDataC4 "tasks").getD .jnull)).1 = false ∧
    localStorageGetItem stoF4.store STORAGE_KEY_TASKS = some tOldStrC4 ∧
    localStorageGetItem store0C4.store STORAGE_KEY_SETTINGS = none ∧
    localStorageGetItem stoF4.store STORAGE_KEY_SETTINGS = some (JVal.stringify dataS4) := by
  have hsT : saveTasks store0C4 now0 ((jsGet impDataC4 "tasks").getD .jnull) =
      (false, store0C4) := by
    have hvt : validateTasks now0 ((jsGet impDataC4 "tasks").getD .jnull) =
        .ok vtListC4 := rfl
    exact saveTasks_err _ _ _ _ hvt
      (setItem_overflow _ _ _ rfl (by rw [store0C4_used]; decide))
  have hsS : saveSettings store0C4 now0 ((jsGet impDataC4 "settings").getD .jnull) =
      (true, stoF4) := by
    apply saveSettings_ok
    have h := setItem_fits store0C4 STORAGE_KEY_SETTINGS
      (JVal.jobj [("settings", validateSettings ((jsGet impDataC4 "settings").getD .jnull)),
                  ("timestamp", JVal.jstr now0),
                  ("version", JVal.jstr CURRENT_VERSION)])
      rfl (by rw [store0C4_used]; decide)
    rw [h]
    rfl
  refine ⟨?_, congrArg Prod.fst hsT, rfl, rfl, rfl⟩
  exact importData_steps store0C4 now0 impStrC4 impDataC4 rfl rfl
    (exportData store0C4 now0).1 store0C4 rfl
    rfl false store0C4 hsT rfl true stoF4 hsS rfl 1 rfl

end TodoSpec
